import Mathlib

/-!
Verification of the `azurerm_compute` Salt execution module
(src/saltext/azurerm/modules/azurerm_compute.py).

The module is a stateless adapter: every function obtains an SDK client
through `saltext.azurerm.utils.azurerm.get_client`, forwards parameters to
one SDK method, and reshapes the response or the raised exception into a
plain return value.  We embed each module function as a Lean function over
an oracle environment `Env` that supplies the outcome of every external
collaborator call (the utils helpers and the SDK client live outside this
repository and are treated as opaque, exactly as the module does).  Each
embedded function returns the pair of
  * `Except Exc Val` — `Except.ok v` when the Python function returns the
    value `v`, `Except.error e` when the exception `e` propagates past the
    function boundary, and
  * `List Event` — the ordered trace of external calls and log invocations
    the function performed.
-/

set_option autoImplicit false

namespace AzureRM

mutual

/-- Python values as they occur in this module: strings, booleans,
integers, `None`, lists, and dictionaries. -/
inductive Val where
  | str : String → Val
  | bool : Bool → Val
  | int : Int → Val
  | none : Val
  | list : VList → Val
  | dict : VDict → Val

/-- A Python list of values. -/
inductive VList where
  | nil : VList
  | cons : Val → VList → VList

/-- A Python dictionary: key/value pairs in insertion order (Python dicts
preserve insertion order) with no duplicate keys (duplicates are prevented
by `VDict.insert` below, which mirrors `d[k] = v`). -/
inductive VDict where
  | nil : VDict
  | cons : Val → Val → VDict → VDict

end

deriving instance DecidableEq for Val, VList, VDict

deriving instance DecidableEq for Except

namespace VDict

/-- Dictionary lookup, `d[k]` / `d.get(k)`: the value at the first (and
only) occurrence of the key. -/
def lookup : VDict → Val → Option Val
  | nil, _ => Option.none
  | cons k' v rest, k => if k' = k then some v else lookup rest k

/-- Python `k in d`. -/
def contains (d : VDict) (k : Val) : Bool :=
  (lookup d k).isSome

/-- Python `d[k] = v`: replace the value at an existing key in place, or
append a new binding at the end. -/
def insert : VDict → Val → Val → VDict
  | nil, k, v => cons k v nil
  | cons k' v' rest, k, v =>
    if k' = k then cons k v rest else cons k' v' (insert rest k v)

/-- Convenience constructor for dictionary literals. -/
def ofList : List (Val × Val) → VDict
  | [] => nil
  | (k, v) :: rest => cons k v (ofList rest)

/-- The keys of a dictionary, in order. -/
def keys : VDict → List Val
  | nil => []
  | cons k _ rest => k :: keys rest

end VDict

namespace VList

/-- Convenience constructor for list literals. -/
def ofList : List Val → VList
  | [] => nil
  | v :: rest => cons v (ofList rest)

/-- View a Python list as a Lean list. -/
def toList : VList → List Val
  | nil => []
  | cons v rest => v :: toList rest

end VList

/-- Python `str(x)` restricted to the value forms this module converts
(`str(vm_instance["id"])` is applied to the id field of a VM dict). -/
def pyStr : Val → String
  | Val.str s => s
  | Val.bool true => "True"
  | Val.bool false => "False"
  | Val.int n => toString n
  | Val.none => "None"
  | Val.list _ => "[...]"
  | Val.dict _ => "\x7b...\x7d"

/-- The exception taxonomy visible to this module.  `resourceNotFound`
and `httpResponse` model `azure.core.exceptions.ResourceNotFoundError`
and `HttpResponseError`; in the SDK `ResourceNotFoundError` is a subclass
of `HttpResponseError`, which `Exc.isHttpResponseError` reflects.
`serialization` models `SerializationError` (not an `HttpResponseError`
subclass), `typeError` models Python `TypeError`, `keyError` models a
`KeyError` from a missing dictionary key, and `other` covers every other
exception an external collaborator may raise (e.g. the `SaltSystemExit`
that `get_client` raises on unrecoverable configuration errors). -/
inductive Exc where
  | resourceNotFound : String → Exc
  | httpResponse : String → Exc
  | serialization : String → Exc
  | typeError : String → Exc
  | keyError : Val → Exc
  | other : String → Exc
  deriving DecidableEq

namespace Exc

/-- Which exceptions an `except HttpResponseError` clause catches:
`HttpResponseError` itself and its subclass `ResourceNotFoundError`. -/
def isHttpResponseError : Exc → Bool
  | resourceNotFound _ => true
  | httpResponse _ => true
  | _ => false

/-- Which exceptions an `except SerializationError` clause catches. -/
def isSerializationError : Exc → Bool
  | serialization _ => true
  | _ => false

/-- Which exceptions an `except TypeError` clause catches. -/
def isTypeError : Exc → Bool
  | typeError _ => true
  | _ => false

/-- Python `str(exc)`: the exception's message string. -/
def str : Exc → String
  | resourceNotFound m => m
  | httpResponse m => m
  | serialization m => m
  | typeError m => m
  | keyError k => pyStr k
  | other m => m

end Exc

/-- The Python error-mapping return value `\x7b"error": msg\x7d`. -/
def errDict (msg : String) : Val :=
  Val.dict (VDict.cons (Val.str "error") (Val.str msg) VDict.nil)

/-- One observable external action of a module function.  The trace of a
run records, in order, every call to a collaborator outside the function
(`__salt__` dispatches, `get_client`, `create_object_model`, the SDK
client methods) and every log invocation (`log_cloud_error` and the
module-level `log.error`). -/
inductive Event where
  | rgGet : String → VDict → Event
  | getClient : String → Event
  | vmGet : Val → String → Event
  | createObjectModel : String → String → VDict → Event
  | sdkCreateOrUpdate : String → String → Val → Event
  | sdkDelete : String → String → Event
  | sdkGet : String → String → Event
  | sdkList : String → Event
  | sdkListAvailableSizes : String → String → Event
  | sdkCapture : String → String → String → String → Bool → Event
  | sdkVmGet : String → String → Option Val → Event
  | sdkConvertToManagedDisks : String → String → Event
  | sdkDeallocate : String → String → Event
  | sdkGeneralize : String → String → Event
  | sdkVmList : String → Event
  | sdkVmListAll : Event
  | sdkVmListAvailableSizes : String → String → Event
  | sdkPowerOff : String → String → Event
  | sdkRestart : String → String → Event
  | sdkStart : String → String → Event
  | sdkRedeploy : String → String → Event
  | logCloudError : String → String → Event
  | logError : String → Event
  deriving DecidableEq

/-- Oracle outcomes for every external collaborator the module calls.
The utils helpers (`get_client`, `create_object_model`,
`paged_object_to_list`, `log_cloud_error`) and the SDK client are outside
this repository; each oracle gives the value the call returns
(`Except.ok`) or the exception it raises (`Except.error`).  SDK methods
that the module reshapes with `.as_dict()` (and, for long-running
operations, `.wait()` / `.result()` first) are modelled by the final
dictionary; `paged_object_to_list` flattening is modelled by the oracle
returning the already-flattened list of item dictionaries. -/
structure Env where
  resource_group_get : String → VDict → Except Exc VDict
  get_client : String → VDict → Except Exc Unit
  virtual_machine_get_salt : Val → String → VDict → Except Exc VDict
  create_object_model : String → String → VDict → Except Exc Val
  availability_sets_create_or_update : String → String → Val → Except Exc VDict
  availability_sets_delete_sdk : String → String → Except Exc Unit
  availability_sets_get_sdk : String → String → Except Exc VDict
  availability_sets_list_sdk : String → Except Exc (List VDict)
  availability_sets_list_sizes_sdk : String → String → Except Exc (List VDict)
  virtual_machines_capture : String → String → String → String → Bool → Except Exc VDict
  virtual_machines_get : String → String → Option Val → Except Exc VDict
  virtual_machines_convert : String → String → Except Exc VDict
  virtual_machines_deallocate : String → String → Except Exc VDict
  virtual_machines_generalize : String → String → Except Exc Unit
  virtual_machines_list_sdk : String → Except Exc (List VDict)
  virtual_machines_list_all_sdk : Except Exc (List VDict)
  virtual_machines_list_sizes_sdk : String → String → Except Exc (List VDict)
  virtual_machines_power_off : String → String → Except Exc VDict
  virtual_machines_restart : String → String → Except Exc VDict
  virtual_machines_start : String → String → Except Exc VDict
  virtual_machines_redeploy : String → String → Except Exc VDict

/-- The result of running a module function: the Python return value (or
the propagating exception) together with the trace of external actions. -/
abbrev Run := Except Exc Val × List Event

/-- Shared shape of `availability_set_get`, `virtual_machine_capture`,
`virtual_machine_get`, `virtual_machine_convert_to_managed_disks`,
`virtual_machine_deallocate`, `virtual_machine_power_off`,
`virtual_machine_restart`, `virtual_machine_start` and
`virtual_machine_redeploy`: call `get_client`, call one SDK method,
return `.as_dict()` of the response, and on a caught `HttpResponseError`
(or its subclass `ResourceNotFoundError`) log through `log_cloud_error`
with the module-name string `logName` and return the error mapping. -/
def mappingRun (client : Except Exc Unit) (sdk : Except Exc VDict)
    (clientEv sdkEv : Event) (logName : String) : Run :=
  match client with
  | Except.error e => (Except.error e, [clientEv])
  | Except.ok _ =>
    match sdk with
    | Except.ok d => (Except.ok (Val.dict d), [clientEv, sdkEv])
    | Except.error e =>
      if e.isHttpResponseError then
        (Except.ok (errDict e.str),
         [clientEv, sdkEv, Event.logCloudError logName e.str])
      else
        (Except.error e, [clientEv, sdkEv])

/-- Shared shape of `availability_set_delete` and
`virtual_machine_generalize`: `result = False`, call `get_client`, call
one SDK method, set `result = True` on success, and on a caught
`HttpResponseError` log through `log_cloud_error` (leaving `result`
`False`). -/
def boolRun (client : Except Exc Unit) (sdk : Except Exc Unit)
    (clientEv sdkEv : Event) (logName : String) : Run :=
  match client with
  | Except.error e => (Except.error e, [clientEv])
  | Except.ok _ =>
    match sdk with
    | Except.ok _ => (Except.ok (Val.bool true), [clientEv, sdkEv])
    | Except.error e =>
      if e.isHttpResponseError then
        (Except.ok (Val.bool false),
         [clientEv, sdkEv, Event.logCloudError logName e.str])
      else
        (Except.error e, [clientEv, sdkEv])

/-- The `for` loop of the listing functions:
`for item in items: result[item["name"]] = item`, starting from the
accumulator `acc`.  A missing `"name"` key raises `KeyError`, which the
surrounding `except HttpResponseError` clause does not catch. -/
def listToNamed : List VDict → VDict → Except Exc VDict
  | [], acc => Except.ok acc
  | item :: rest, acc =>
    match VDict.lookup item (Val.str "name") with
    | Option.none => Except.error (Exc.keyError (Val.str "name"))
    | some nameVal => listToNamed rest (VDict.insert acc nameVal (Val.dict item))

/-- Shared shape of the five listing functions: `result = \x7b\x7d`, call
`get_client`, flatten the paged SDK response with `paged_object_to_list`,
key each item by its `"name"` field, and on a caught `HttpResponseError`
(or `ResourceNotFoundError`) log through `log_cloud_error` and return the
error mapping. -/
def listingRun (client : Except Exc Unit) (sdk : Except Exc (List VDict))
    (clientEv sdkEv : Event) (logName : String) : Run :=
  match client with
  | Except.error e => (Except.error e, [clientEv])
  | Except.ok _ =>
    match sdk with
    | Except.ok items =>
      match listToNamed items VDict.nil with
      | Except.ok r => (Except.ok (Val.dict r), [clientEv, sdkEv])
      | Except.error e => (Except.error e, [clientEv, sdkEv])
    | Except.error e =>
      if e.isHttpResponseError then
        (Except.ok (errDict e.str),
         [clientEv, sdkEv, Event.logCloudError logName e.str])
      else
        (Except.error e, [clientEv, sdkEv])

/-- The VM-name resolution loop of `availability_set_create_or_update`
(lines 100–106): for each entry of the `virtual_machines` list, call
`__salt__["azurerm_compute.virtual_machine_get"]`; when its result has no
`"error"` key, append `\x7b"id": str(vm_instance["id"])\x7d`, otherwise
silently skip the entry.  A result lacking both `"error"` and `"id"`
raises `KeyError`, which nothing in the function catches. -/
def resolveVmList (env : Env) (resource_group : String) (kwargs : VDict) :
    VList → Except Exc (List Val) × List Event
  | VList.nil => (Except.ok [], [])
  | VList.cons vm_name rest =>
    match env.virtual_machine_get_salt vm_name resource_group kwargs with
    | Except.error e => (Except.error e, [Event.vmGet vm_name resource_group])
    | Except.ok vm_instance =>
      if VDict.contains vm_instance (Val.str "error") then
        let r := resolveVmList env resource_group kwargs rest
        (r.1, Event.vmGet vm_name resource_group :: r.2)
      else
        match VDict.lookup vm_instance (Val.str "id") with
        | Option.none =>
          (Except.error (Exc.keyError (Val.str "id")),
           [Event.vmGet vm_name resource_group])
        | some vid =>
          let r := resolveVmList env resource_group kwargs rest
          (match r.1 with
           | Except.ok l =>
             Except.ok
               (Val.dict (VDict.cons (Val.str "id") (Val.str (pyStr vid)) VDict.nil) :: l)
           | Except.error e => Except.error e,
           Event.vmGet vm_name resource_group :: r.2)

/-- The tail of `availability_set_create_or_update` (lines 109–131):
build the `AvailabilitySet` object model from the keyword arguments
(catching `TypeError` as "The object model could not be built."), then
call the SDK's `create_or_update` (catching `HttpResponseError` with a
`log_cloud_error` call, and `SerializationError` as "The object model
could not be parsed."). -/
def avsetBuildAndCall (env : Env) (name resource_group : String) (kwargs : VDict) : Run :=
  match env.create_object_model "compute" "AvailabilitySet" kwargs with
  | Except.error e =>
    if e.isTypeError then
      (Except.ok (errDict ("The object model could not be built. (" ++ e.str ++ ")")),
       [Event.createObjectModel "compute" "AvailabilitySet" kwargs])
    else
      (Except.error e, [Event.createObjectModel "compute" "AvailabilitySet" kwargs])
  | Except.ok setmodel =>
    match env.availability_sets_create_or_update resource_group name setmodel with
    | Except.ok av_set =>
      (Except.ok (Val.dict av_set),
       [Event.createObjectModel "compute" "AvailabilitySet" kwargs,
        Event.sdkCreateOrUpdate resource_group name setmodel])
    | Except.error e =>
      if e.isHttpResponseError then
        (Except.ok (errDict e.str),
         [Event.createObjectModel "compute" "AvailabilitySet" kwargs,
          Event.sdkCreateOrUpdate resource_group name setmodel,
          Event.logCloudError "compute" e.str])
      else if e.isSerializationError then
        (Except.ok (errDict ("The object model could not be parsed. (" ++ e.str ++ ")")),
         [Event.createObjectModel "compute" "AvailabilitySet" kwargs,
          Event.sdkCreateOrUpdate resource_group name setmodel])
      else
        (Except.error e,
         [Event.createObjectModel "compute" "AvailabilitySet" kwargs,
          Event.sdkCreateOrUpdate resource_group name setmodel])

/-- The part of `availability_set_create_or_update` after the location
has been determined (lines 96–131): call `get_client`, then — only when
`kwargs.get("virtual_machines")` is a list — resolve the VM names and
overwrite `kwargs["virtual_machines"]` with the resolved id objects,
then build the object model and call the SDK. -/
def avsetAfterLocation (env : Env) (name resource_group : String) (kwargs : VDict) : Run :=
  match env.get_client "compute" kwargs with
  | Except.error e => (Except.error e, [Event.getClient "compute"])
  | Except.ok _ =>
    match VDict.lookup kwargs (Val.str "virtual_machines") with
    | some (Val.list vms) =>
      let r := resolveVmList env resource_group kwargs vms
      match r.1 with
      | Except.error e => (Except.error e, Event.getClient "compute" :: r.2)
      | Except.ok vm_list =>
        let kwargs2 :=
          VDict.insert kwargs (Val.str "virtual_machines") (Val.list (VList.ofList vm_list))
        let r2 := avsetBuildAndCall env name resource_group kwargs2
        (r2.1, Event.getClient "compute" :: (r.2 ++ r2.2))
    | _ =>
      let r2 := avsetBuildAndCall env name resource_group kwargs
      (r2.1, Event.getClient "compute" :: r2.2)

/-- Embedding of `availability_set_create_or_update` (lines 68–131).
When `"location"` is not among the keyword arguments, the function first
calls `__salt__["azurerm_resource.resource_group_get"]`; an `"error"` key
in that result makes it log `log.error(...)` and return `False`,
otherwise `kwargs["location"] = rg_props["location"]` is adopted. -/
def availability_set_create_or_update (env : Env) (name resource_group : String)
    (kwargs : VDict) : Run :=
  if VDict.contains kwargs (Val.str "location") then
    avsetAfterLocation env name resource_group kwargs
  else
    match env.resource_group_get resource_group kwargs with
    | Except.error e => (Except.error e, [Event.rgGet resource_group kwargs])
    | Except.ok rg_props =>
      if VDict.contains rg_props (Val.str "error") then
        (Except.ok (Val.bool false),
         [Event.rgGet resource_group kwargs,
          Event.logError "Unable to determine location from resource group specified."])
      else
        match VDict.lookup rg_props (Val.str "location") with
        | Option.none =>
          (Except.error (Exc.keyError (Val.str "location")),
           [Event.rgGet resource_group kwargs])
        | some loc =>
          let r := avsetAfterLocation env name resource_group
            (VDict.insert kwargs (Val.str "location") loc)
          (r.1, Event.rgGet resource_group kwargs :: r.2)

/-- Embedding of `availability_set_delete` (lines 134–163). -/
def availability_set_delete (env : Env) (name resource_group : String)
    (kwargs : VDict) : Run :=
  boolRun (env.get_client "compute" kwargs)
    (env.availability_sets_delete_sdk resource_group name)
    (Event.getClient "compute") (Event.sdkDelete resource_group name) "compute"

/-- Embedding of `availability_set_get` (lines 166–195). -/
def availability_set_get (env : Env) (name resource_group : String)
    (kwargs : VDict) : Run :=
  mappingRun (env.get_client "compute" kwargs)
    (env.availability_sets_get_sdk resource_group name)
    (Event.getClient "compute") (Event.sdkGet resource_group name) "compute"

/-- Embedding of `availability_sets_list` (lines 198–227). -/
def availability_sets_list (env : Env) (resource_group : String)
    (kwargs : VDict) : Run :=
  listingRun (env.get_client "compute" kwargs)
    (env.availability_sets_list_sdk resource_group)
    (Event.getClient "compute") (Event.sdkList resource_group) "compute"

/-- Embedding of `availability_sets_list_available_sizes` (lines 230–267). -/
def availability_sets_list_available_sizes (env : Env) (name resource_group : String)
    (kwargs : VDict) : Run :=
  listingRun (env.get_client "compute" kwargs)
    (env.availability_sets_list_sizes_sdk resource_group name)
    (Event.getClient "compute")
    (Event.sdkListAvailableSizes resource_group name) "compute"

/-- Embedding of `virtual_machine_capture` (lines 270–321); the SDK call
receives the `VirtualMachineCaptureParameters` built from the `pfx`
(source parameter `prefix`), `destination_name` and `overwrite`
arguments, and the long-running operation's final `.result().as_dict()`
is returned. -/
def virtual_machine_capture (env : Env) (name destination_name resource_group : String)
    (pfx : String) (overwrite : Bool) (kwargs : VDict) : Run :=
  mappingRun (env.get_client "compute" kwargs)
    (env.virtual_machines_capture resource_group name pfx destination_name overwrite)
    (Event.getClient "compute")
    (Event.sdkCapture resource_group name pfx destination_name overwrite) "compute"

/-- Embedding of `virtual_machine_get` (lines 324–356); the SDK call
receives `expand = kwargs.get("expand")`. -/
def virtual_machine_get (env : Env) (name resource_group : String)
    (kwargs : VDict) : Run :=
  mappingRun (env.get_client "compute" kwargs)
    (env.virtual_machines_get resource_group name (VDict.lookup kwargs (Val.str "expand")))
    (Event.getClient "compute")
    (Event.sdkVmGet resource_group name (VDict.lookup kwargs (Val.str "expand"))) "compute"

/-- Embedding of `virtual_machine_convert_to_managed_disks`
(lines 359–393).  Note: the source's `except` clause (line 390) passes
the string `"comput"` — not `"compute"` — to `log_cloud_error`. -/
def virtual_machine_convert_to_managed_disks (env : Env) (name resource_group : String)
    (kwargs : VDict) : Run :=
  mappingRun (env.get_client "compute" kwargs)
    (env.virtual_machines_convert resource_group name)
    (Event.getClient "compute")
    (Event.sdkConvertToManagedDisks resource_group name) "comput"

/-- Embedding of `virtual_machine_deallocate` (lines 396–427). -/
def virtual_machine_deallocate (env : Env) (name resource_group : String)
    (kwargs : VDict) : Run :=
  mappingRun (env.get_client "compute" kwargs)
    (env.virtual_machines_deallocate resource_group name)
    (Event.getClient "compute") (Event.sdkDeallocate resource_group name) "compute"

/-- Embedding of `virtual_machine_generalize` (lines 430–456). -/
def virtual_machine_generalize (env : Env) (name resource_group : String)
    (kwargs : VDict) : Run :=
  boolRun (env.get_client "compute" kwargs)
    (env.virtual_machines_generalize resource_group name)
    (Event.getClient "compute") (Event.sdkGeneralize resource_group name) "compute"

/-- Embedding of `virtual_machines_list` (lines 459–487). -/
def virtual_machines_list (env : Env) (resource_group : String)
    (kwargs : VDict) : Run :=
  listingRun (env.get_client "compute" kwargs)
    (env.virtual_machines_list_sdk resource_group)
    (Event.getClient "compute") (Event.sdkVmList resource_group) "compute"

/-- Embedding of `virtual_machines_list_all` (lines 490–515). -/
def virtual_machines_list_all (env : Env) (kwargs : VDict) : Run :=
  listingRun (env.get_client "compute" kwargs)
    env.virtual_machines_list_all_sdk
    (Event.getClient "compute") Event.sdkVmListAll "compute"

/-- Embedding of `virtual_machines_list_available_sizes` (lines 518–553). -/
def virtual_machines_list_available_sizes (env : Env) (name resource_group : String)
    (kwargs : VDict) : Run :=
  listingRun (env.get_client "compute" kwargs)
    (env.virtual_machines_list_sizes_sdk resource_group name)
    (Event.getClient "compute")
    (Event.sdkVmListAvailableSizes resource_group name) "compute"

/-- Embedding of `virtual_machine_power_off` (lines 556–587). -/
def virtual_machine_power_off (env : Env) (name resource_group : String)
    (kwargs : VDict) : Run :=
  mappingRun (env.get_client "compute" kwargs)
    (env.virtual_machines_power_off resource_group name)
    (Event.getClient "compute") (Event.sdkPowerOff resource_group name) "compute"

/-- Embedding of `virtual_machine_restart` (lines 590–621). -/
def virtual_machine_restart (env : Env) (name resource_group : String)
    (kwargs : VDict) : Run :=
  mappingRun (env.get_client "compute" kwargs)
    (env.virtual_machines_restart resource_group name)
    (Event.getClient "compute") (Event.sdkRestart resource_group name) "compute"

/-- Embedding of `virtual_machine_start` (lines 624–653). -/
def virtual_machine_start (env : Env) (name resource_group : String)
    (kwargs : VDict) : Run :=
  mappingRun (env.get_client "compute" kwargs)
    (env.virtual_machines_start resource_group name)
    (Event.getClient "compute") (Event.sdkStart resource_group name) "compute"

/-- Embedding of `virtual_machine_redeploy` (lines 656–687). -/
def virtual_machine_redeploy (env : Env) (name resource_group : String)
    (kwargs : VDict) : Run :=
  mappingRun (env.get_client "compute" kwargs)
    (env.virtual_machines_redeploy resource_group name)
    (Event.getClient "compute") (Event.sdkRedeploy resource_group name) "compute"

namespace Event

/-- Does the event record the resource-group lookup call? -/
def isRgGet : Event → Bool
  | rgGet _ _ => true
  | _ => false

/-- Does the event record the SDK `availability_sets.create_or_update` call? -/
def isSdkCreateOrUpdate : Event → Bool
  | sdkCreateOrUpdate _ _ _ => true
  | _ => false

/-- Does the event record a `virtual_machine_get` dispatch from the VM
resolution loop? -/
def isVmGet : Event → Bool
  | vmGet _ _ => true
  | _ => false

/-- Does the event record a `log_cloud_error` invocation? -/
def isLogCloudError : Event → Bool
  | logCloudError _ _ => true
  | _ => false

end Event

/-- Specification-side companion of the listing loop (from the spec's
words "return a mapping keyed by each item's `name` field"): fold the
flattened items into a dictionary keyed by each item's `"name"` value.
Items without a `"name"` key are skipped here; under the hypothesis that
every item carries one, this agrees with `listToNamed`. -/
def namedAux : List VDict → VDict → VDict
  | [], acc => acc
  | item :: rest, acc =>
    match VDict.lookup item (Val.str "name") with
    | some nameVal => namedAux rest (VDict.insert acc nameVal (Val.dict item))
    | Option.none => namedAux rest acc

/-- The last item of the sequence whose `"name"` field equals `k`, if
any: the value that overwrite-on-duplicate keying leaves in the result. -/
def lastNamed : List VDict → Val → Option VDict
  | [], _ => Option.none
  | item :: rest, k =>
    match lastNamed rest k with
    | some r => some r
    | Option.none =>
      if VDict.lookup item (Val.str "name") = some k then some item else Option.none

/-- Specification-side companion of the VM resolution loop (from the
spec's words "substitutes a list of `\x7b"id": ...\x7d` objects, silently
dropping names that fail to resolve"): given the dictionary `f v` that
the VM-get function returns for the name `v`, an entry whose result
carries an `"error"` key is dropped, every other entry becomes
`\x7b"id": str(id)\x7d`. -/
def resolveSpec (f : Val → VDict) (v : Val) : Option Val :=
  if VDict.contains (f v) (Val.str "error") then Option.none
  else
    (VDict.lookup (f v) (Val.str "id")).map
      (fun vid => Val.dict (VDict.cons (Val.str "id") (Val.str (pyStr vid)) VDict.nil))

/-- An oracle environment in which every external call succeeds with a
minimal value. -/
def okEnv : Env where
  resource_group_get := fun _ _ =>
    Except.ok (VDict.cons (Val.str "location") (Val.str "eastus") VDict.nil)
  get_client := fun _ _ => Except.ok ()
  virtual_machine_get_salt := fun _ _ _ =>
    Except.ok (VDict.cons (Val.str "id") (Val.str "vmid") VDict.nil)
  create_object_model := fun _ _ k => Except.ok (Val.dict k)
  availability_sets_create_or_update := fun _ _ _ => Except.ok VDict.nil
  availability_sets_delete_sdk := fun _ _ => Except.ok ()
  availability_sets_get_sdk := fun _ _ => Except.ok VDict.nil
  availability_sets_list_sdk := fun _ => Except.ok []
  availability_sets_list_sizes_sdk := fun _ _ => Except.ok []
  virtual_machines_capture := fun _ _ _ _ _ => Except.ok VDict.nil
  virtual_machines_get := fun _ _ _ => Except.ok VDict.nil
  virtual_machines_convert := fun _ _ => Except.ok VDict.nil
  virtual_machines_deallocate := fun _ _ => Except.ok VDict.nil
  virtual_machines_generalize := fun _ _ => Except.ok ()
  virtual_machines_list_sdk := fun _ => Except.ok []
  virtual_machines_list_all_sdk := Except.ok []
  virtual_machines_list_sizes_sdk := fun _ _ => Except.ok []
  virtual_machines_power_off := fun _ _ => Except.ok VDict.nil
  virtual_machines_restart := fun _ _ => Except.ok VDict.nil
  virtual_machines_start := fun _ _ => Except.ok VDict.nil
  virtual_machines_redeploy := fun _ _ => Except.ok VDict.nil

/-- An environment in which every SDK resource call raises
`HttpResponseError("boom")` while client construction and object-model
construction succeed. -/
def envAllErr : Env := { okEnv with
  availability_sets_create_or_update := fun _ _ _ =>
    Except.error (Exc.httpResponse "boom")
  availability_sets_delete_sdk := fun _ _ => Except.error (Exc.httpResponse "boom")
  availability_sets_get_sdk := fun _ _ => Except.error (Exc.httpResponse "boom")
  availability_sets_list_sdk := fun _ => Except.error (Exc.httpResponse "boom")
  availability_sets_list_sizes_sdk := fun _ _ => Except.error (Exc.httpResponse "boom")
  virtual_machines_capture := fun _ _ _ _ _ => Except.error (Exc.httpResponse "boom")
  virtual_machines_get := fun _ _ _ => Except.error (Exc.httpResponse "boom")
  virtual_machines_convert := fun _ _ => Except.error (Exc.httpResponse "boom")
  virtual_machines_deallocate := fun _ _ => Except.error (Exc.httpResponse "boom")
  virtual_machines_generalize := fun _ _ => Except.error (Exc.httpResponse "boom")
  virtual_machines_list_sdk := fun _ => Except.error (Exc.httpResponse "boom")
  virtual_machines_list_all_sdk := Except.error (Exc.httpResponse "boom")
  virtual_machines_list_sizes_sdk := fun _ _ => Except.error (Exc.httpResponse "boom")
  virtual_machines_power_off := fun _ _ => Except.error (Exc.httpResponse "boom")
  virtual_machines_restart := fun _ _ => Except.error (Exc.httpResponse "boom")
  virtual_machines_start := fun _ _ => Except.error (Exc.httpResponse "boom")
  virtual_machines_redeploy := fun _ _ => Except.error (Exc.httpResponse "boom") }

/-- An environment whose client factory raises on unrecoverable
configuration errors, as `get_client` does (the utils tests expect
`SaltSystemExit`). -/
def envBadAuth : Env := { okEnv with
  get_client := fun _ _ => Except.error (Exc.other "The compute client is not supported.") }

/-- An environment in which every SDK resource call raises an exception
of an undocumented type (neither `HttpResponseError` nor
`SerializationError`), such as a transport-level failure, while client
construction and object-model construction succeed. -/
def envUnexpected : Env := { okEnv with
  availability_sets_create_or_update := fun _ _ _ =>
    Except.error (Exc.other "unexpected")
  availability_sets_delete_sdk := fun _ _ => Except.error (Exc.other "unexpected")
  availability_sets_get_sdk := fun _ _ => Except.error (Exc.other "unexpected")
  availability_sets_list_sdk := fun _ => Except.error (Exc.other "unexpected")
  availability_sets_list_sizes_sdk := fun _ _ => Except.error (Exc.other "unexpected")
  virtual_machines_capture := fun _ _ _ _ _ => Except.error (Exc.other "unexpected")
  virtual_machines_get := fun _ _ _ => Except.error (Exc.other "unexpected")
  virtual_machines_convert := fun _ _ => Except.error (Exc.other "unexpected")
  virtual_machines_deallocate := fun _ _ => Except.error (Exc.other "unexpected")
  virtual_machines_generalize := fun _ _ => Except.error (Exc.other "unexpected")
  virtual_machines_list_sdk := fun _ => Except.error (Exc.other "unexpected")
  virtual_machines_list_all_sdk := Except.error (Exc.other "unexpected")
  virtual_machines_list_sizes_sdk := fun _ _ => Except.error (Exc.other "unexpected")
  virtual_machines_power_off := fun _ _ => Except.error (Exc.other "unexpected")
  virtual_machines_restart := fun _ _ => Except.error (Exc.other "unexpected")
  virtual_machines_start := fun _ _ => Except.error (Exc.other "unexpected")
  virtual_machines_redeploy := fun _ _ => Except.error (Exc.other "unexpected") }

/-- An environment whose object-model builder always raises
`TypeError("oops")`. -/
def envTypeErr : Env := { okEnv with
  create_object_model := fun _ _ _ => Except.error (Exc.typeError "oops") }

/-- An environment whose resource-group lookup returns an error mapping. -/
def envRgErr : Env := { okEnv with
  resource_group_get := fun _ _ =>
    Except.ok (VDict.cons (Val.str "error") (Val.str "group not found") VDict.nil) }

/-- Per-name VM-get results used by the C4 witness: `vm1` resolves,
every other name yields an error mapping. -/
def vmLookupC4 : Val → VDict := fun v =>
  if v = Val.str "vm1" then VDict.cons (Val.str "id") (Val.str "id1") VDict.nil
  else VDict.cons (Val.str "error") (Val.str "missing") VDict.nil

/-- An environment whose VM-get dispatch answers with `vmLookupC4`. -/
def envVmNames : Env := { okEnv with
  virtual_machine_get_salt := fun v _ _ => Except.ok (vmLookupC4 v) }

/-- An environment whose SDK `create_or_update` raises
`SerializationError("bad")`. -/
def envSer : Env := { okEnv with
  availability_sets_create_or_update := fun _ _ _ =>
    Except.error (Exc.serialization "bad") }

/-- An environment whose object-model builder raises `TypeError` exactly
when the keyword arguments carry a `"trigger"` key, and whose SDK
`create_or_update` raises `SerializationError`. -/
def envBuild : Env := { okEnv with
  create_object_model := fun _ _ k =>
    if VDict.contains k (Val.str "trigger") then Except.error (Exc.typeError "oops")
    else Except.ok (Val.dict k)
  availability_sets_create_or_update := fun _ _ _ =>
    Except.error (Exc.serialization "parsefail") }

/-- Two availability-set items sharing the name `"a"`. -/
def itemA1 : VDict := VDict.ofList [(Val.str "name", Val.str "a"), (Val.str "x", Val.int 1)]

/-- Second item with the duplicate name `"a"`. -/
def itemA2 : VDict := VDict.ofList [(Val.str "name", Val.str "a"), (Val.str "x", Val.int 2)]

/-- A virtual-machine item named `"b"`. -/
def itemB : VDict := VDict.ofList [(Val.str "name", Val.str "b"), (Val.str "x", Val.int 3)]

/-- An environment whose availability-set listing yields two items with
the same `"name"` field (for both cited listing functions). -/
def envDup : Env := { okEnv with
  availability_sets_list_sdk := fun _ => Except.ok [itemA1, itemA2]
  virtual_machines_list_sizes_sdk := fun _ _ => Except.ok [itemA1, itemA2] }

/-- An environment whose five listing SDK calls all yield the same two
items with distinct names. -/
def envTwo : Env := { okEnv with
  availability_sets_list_sdk := fun _ => Except.ok [itemA1, itemB]
  availability_sets_list_sizes_sdk := fun _ _ => Except.ok [itemA1, itemB]
  virtual_machines_list_sdk := fun _ => Except.ok [itemA1, itemB]
  virtual_machines_list_all_sdk := Except.ok [itemA1, itemB]
  virtual_machines_list_sizes_sdk := fun _ _ => Except.ok [itemA1, itemB] }

/-- Keyword arguments carrying only a `"location"` entry. -/
def kwLoc : VDict := VDict.cons (Val.str "location") (Val.str "eastus") VDict.nil

/-- Keyword arguments carrying a location and a `virtual_machines` list
of two VM names. -/
def kwVms : VDict :=
  VDict.ofList [(Val.str "location", Val.str "eastus"),
    (Val.str "virtual_machines", Val.list (VList.ofList [Val.str "vm1", Val.str "vm2"]))]

/-- The keyword arguments of `kwVms` after VM-name resolution against
`vmLookupC4`: `vm1` resolved to its id object, `vm2` dropped. -/
def kwResolved : VDict :=
  VDict.ofList [(Val.str "location", Val.str "eastus"),
    (Val.str "virtual_machines",
     Val.list (VList.ofList
       [Val.dict (VDict.cons (Val.str "id") (Val.str "id1") VDict.nil)]))]

/-- Keyword arguments whose `virtual_machines` entry is a single string
rather than a list. -/
def kwVmStr : VDict :=
  VDict.ofList [(Val.str "location", Val.str "eastus"),
    (Val.str "virtual_machines", Val.str "vm1")]

/-- Keyword arguments that make `envBuild`'s object-model builder raise
`TypeError`. -/
def kwTrigger : VDict :=
  VDict.ofList [(Val.str "location", Val.str "eastus"), (Val.str "trigger", Val.bool true)]

/-- Is the value a Python list? (`isinstance(x, list)`) -/
def Val.isList : Val → Bool
  | Val.list _ => true
  | _ => false

theorem VDict.dictInduction {motive : VDict → Prop} (d : VDict)
    (hnil : motive VDict.nil)
    (hcons : ∀ k v rest, motive rest → motive (VDict.cons k v rest)) :
    motive d :=
  match d with
  | VDict.nil => hnil
  | VDict.cons k v rest => hcons k v rest (VDict.dictInduction rest hnil hcons)

theorem VList.listInduction {motive : VList → Prop} (l : VList)
    (hnil : motive VList.nil)
    (hcons : ∀ v rest, motive rest → motive (VList.cons v rest)) :
    motive l :=
  match l with
  | VList.nil => hnil
  | VList.cons v rest => hcons v rest (VList.listInduction rest hnil hcons)

theorem VDict.lookup_insert (d : VDict) (k v k' : Val) :
    VDict.lookup (VDict.insert d k v) k' =
      if k = k' then some v else VDict.lookup d k' := by
  induction d using VDict.dictInduction with
  | hnil => simp [VDict.insert, VDict.lookup]
  | hcons k0 v0 rest ih =>
    by_cases h0 : k0 = k
    · subst h0
      by_cases h1 : k0 = k' <;> simp [VDict.insert, VDict.lookup, h1]
    · have hins : VDict.insert (VDict.cons k0 v0 rest) k v =
          VDict.cons k0 v0 (VDict.insert rest k v) := by
        simp [VDict.insert, h0]
      rw [hins]
      by_cases h1 : k0 = k'
      · subst h1
        have hkk : ¬k = k0 := fun h => h0 h.symm
        simp [VDict.lookup, hkk]
      · simp [VDict.lookup, h1, ih]

theorem VDict.contains_iff_mem_keys (d : VDict) (k : Val) :
    VDict.contains d k = true ↔ k ∈ VDict.keys d := by
  induction d using VDict.dictInduction with
  | hnil => simp [VDict.contains, VDict.lookup, VDict.keys]
  | hcons k0 v0 rest ih =>
    by_cases h0 : k0 = k
    · subst h0; simp [VDict.contains, VDict.lookup, VDict.keys]
    · simp [VDict.contains, VDict.lookup, VDict.keys, h0] at ih ⊢
      rw [ih]
      constructor
      · exact Or.inr
      · rintro (h | h)
        · exact absurd h.symm h0
        · exact h

theorem VDict.keys_insert_of_contains (d : VDict) (k v : Val)
    (h : VDict.contains d k = true) :
    VDict.keys (VDict.insert d k v) = VDict.keys d := by
  induction d using VDict.dictInduction with
  | hnil => simp [VDict.contains, VDict.lookup] at h
  | hcons k0 v0 rest ih =>
    by_cases h0 : k0 = k
    · subst h0; simp [VDict.insert, VDict.keys]
    · simp [VDict.contains, VDict.lookup, h0] at h
      have h' : VDict.contains rest k = true := by simp [VDict.contains, h]
      simp [VDict.insert, VDict.keys, h0, ih h']

theorem VDict.keys_insert_of_not_contains (d : VDict) (k v : Val)
    (h : VDict.contains d k = false) :
    VDict.keys (VDict.insert d k v) = VDict.keys d ++ [k] := by
  induction d using VDict.dictInduction with
  | hnil => simp [VDict.insert, VDict.keys]
  | hcons k0 v0 rest ih =>
    by_cases h0 : k0 = k
    · subst h0; simp [VDict.contains, VDict.lookup] at h
    · simp [VDict.contains, VDict.lookup, h0] at h
      have h' : VDict.contains rest k = false := by simp [VDict.contains, h]
      simp [VDict.insert, VDict.keys, h0, ih h']

theorem VDict.keys_nodup_insert (d : VDict) (k v : Val)
    (h : (VDict.keys d).Nodup) : (VDict.keys (VDict.insert d k v)).Nodup := by
  by_cases hc : VDict.contains d k = true
  · rw [VDict.keys_insert_of_contains d k v hc]; exact h
  · rw [VDict.keys_insert_of_not_contains d k v (Bool.not_eq_true _ ▸ hc)]
    have hk : k ∉ VDict.keys d := fun hm =>
      hc ((VDict.contains_iff_mem_keys d k).mpr hm)
    simp [List.nodup_append, h, hk]

theorem listToNamed_eq_namedAux (items : List VDict) (acc : VDict)
    (h : ∀ it ∈ items, (VDict.lookup it (Val.str "name")).isSome = true) :
    listToNamed items acc = Except.ok (namedAux items acc) := by
  induction items generalizing acc with
  | nil => rfl
  | cons item rest ih =>
    have hh := h item (List.mem_cons_self item rest)
    cases hl : VDict.lookup item (Val.str "name") with
    | none => rw [hl] at hh; simp at hh
    | some nm =>
      simp only [listToNamed, namedAux, hl]
      exact ih _ (fun it hit => h it (List.mem_cons_of_mem _ hit))

theorem lookup_namedAux (items : List VDict) (acc : VDict) (k : Val) :
    VDict.lookup (namedAux items acc) k =
      match lastNamed items k with
      | some it => some (Val.dict it)
      | Option.none => VDict.lookup acc k := by
  induction items generalizing acc with
  | nil => rfl
  | cons item rest ih =>
    cases hl : VDict.lookup item (Val.str "name") with
    | none =>
      simp only [namedAux, lastNamed, hl, ih]
      cases lastNamed rest k with
      | none => simp
      | some r => rfl
    | some nm =>
      simp only [namedAux, lastNamed, hl, ih, VDict.lookup_insert]
      cases lastNamed rest k with
      | some r => rfl
      | none =>
        by_cases hk : nm = k
        · subst hk; simp
        · simp [hk, fun h => hk (Option.some.inj h)]

theorem keys_nodup_namedAux (items : List VDict) (acc : VDict)
    (h : (VDict.keys acc).Nodup) : (VDict.keys (namedAux items acc)).Nodup := by
  induction items generalizing acc with
  | nil => exact h
  | cons item rest ih =>
    cases hl : VDict.lookup item (Val.str "name") with
    | none => simp only [namedAux, hl]; exact ih _ h
    | some nm =>
      simp only [namedAux, hl]
      exact ih _ (VDict.keys_nodup_insert _ _ _ h)

theorem lastNamed_isSome_of_mem (items : List VDict) (it : VDict) (k : Val)
    (hm : it ∈ items) (hn : VDict.lookup it (Val.str "name") = some k) :
    (lastNamed items k).isSome = true := by
  induction items with
  | nil => simp at hm
  | cons item rest ih =>
    rcases List.mem_cons.mp hm with h | h
    · subst h
      simp only [lastNamed]
      cases lastNamed rest k with
      | some r => rfl
      | none => simp [hn]
    · simp only [lastNamed]
      have := ih h
      cases hr : lastNamed rest k with
      | some r => rfl
      | none => rw [hr] at this; simp at this

theorem resolveVmList_spec (env : Env) (rg : String) (kwargs : VDict)
    (f : Val → VDict)
    (hf : ∀ v, env.virtual_machine_get_salt v rg kwargs = Except.ok (f v))
    (vl : VList)
    (hid : ∀ v ∈ vl.toList, VDict.contains (f v) (Val.str "error") = false →
      (VDict.lookup (f v) (Val.str "id")).isSome = true) :
    resolveVmList env rg kwargs vl =
      (Except.ok (vl.toList.filterMap (resolveSpec f)),
       vl.toList.map (fun v => Event.vmGet v rg)) := by
  induction vl using VList.listInduction with
  | hnil => rfl
  | hcons v rest ih =>
    have hrest : ∀ w ∈ rest.toList,
        VDict.contains (f w) (Val.str "error") = false →
        (VDict.lookup (f w) (Val.str "id")).isSome = true :=
      fun w hw => hid w (List.mem_cons_of_mem _ hw)
    by_cases he : VDict.contains (f v) (Val.str "error") = true
    · have hs : resolveSpec f v = Option.none := by simp [resolveSpec, he]
      simp [resolveVmList, hf v, he, ih hrest, VList.toList, hs]
    · have he' : VDict.contains (f v) (Val.str "error") = false := by simpa using he
      have hid0 := hid v (by simp [VList.toList]) he'
      cases hvid : VDict.lookup (f v) (Val.str "id") with
      | none => rw [hvid] at hid0; simp at hid0
      | some vid =>
        have hs : resolveSpec f v =
            some (Val.dict (VDict.cons (Val.str "id") (Val.str (pyStr vid)) VDict.nil)) := by
          simp [resolveSpec, he', hvid]
        simp [resolveVmList, hf v, he', hvid, ih hrest, VList.toList, hs]

theorem mappingRun_clientErr (e : Exc) (sdk : Except Exc VDict)
    (cev sev : Event) (ln : String) :
    mappingRun (Except.error e) sdk cev sev ln = (Except.error e, [cev]) := rfl

theorem mappingRun_ok (d : VDict) (cev sev : Event) (ln : String) :
    mappingRun (Except.ok ()) (Except.ok d) cev sev ln =
      (Except.ok (Val.dict d), [cev, sev]) := rfl

theorem mappingRun_http (e : Exc) (he : e.isHttpResponseError = true)
    (cev sev : Event) (ln : String) :
    mappingRun (Except.ok ()) (Except.error e) cev sev ln =
      (Except.ok (errDict e.str), [cev, sev, Event.logCloudError ln e.str]) := by
  simp [mappingRun, he]

theorem mappingRun_raise (e : Exc) (he : e.isHttpResponseError = false)
    (cev sev : Event) (ln : String) :
    mappingRun (Except.ok ()) (Except.error e) cev sev ln =
      (Except.error e, [cev, sev]) := by
  simp [mappingRun, he]

theorem boolRun_clientErr (e : Exc) (sdk : Except Exc Unit)
    (cev sev : Event) (ln : String) :
    boolRun (Except.error e) sdk cev sev ln = (Except.error e, [cev]) := rfl

theorem boolRun_ok (cev sev : Event) (ln : String) :
    boolRun (Except.ok ()) (Except.ok ()) cev sev ln =
      (Except.ok (Val.bool true), [cev, sev]) := rfl

theorem boolRun_http (e : Exc) (he : e.isHttpResponseError = true)
    (cev sev : Event) (ln : String) :
    boolRun (Except.ok ()) (Except.error e) cev sev ln =
      (Except.ok (Val.bool false), [cev, sev, Event.logCloudError ln e.str]) := by
  simp [boolRun, he]

theorem listingRun_clientErr (e : Exc) (sdk : Except Exc (List VDict))
    (cev sev : Event) (ln : String) :
    listingRun (Except.error e) sdk cev sev ln = (Except.error e, [cev]) := rfl

theorem listingRun_http (e : Exc) (he : e.isHttpResponseError = true)
    (cev sev : Event) (ln : String) :
    listingRun (Except.ok ()) (Except.error e) cev sev ln =
      (Except.ok (errDict e.str), [cev, sev, Event.logCloudError ln e.str]) := by
  simp [listingRun, he]

theorem listingRun_ok (items : List VDict) (cev sev : Event) (ln : String)
    (h : ∀ it ∈ items, (VDict.lookup it (Val.str "name")).isSome = true) :
    listingRun (Except.ok ()) (Except.ok items) cev sev ln =
      (Except.ok (Val.dict (namedAux items VDict.nil)), [cev, sev]) := by
  simp [listingRun, listToNamed_eq_namedAux items VDict.nil h]

theorem resolveVmList_countP (env : Env) (rg : String) (kwargs : VDict)
    (p : Event → Bool) (hp : ∀ v g, p (Event.vmGet v g) = false) (vl : VList) :
    ((resolveVmList env rg kwargs vl).2.countP p) = 0 := by
  induction vl using VList.listInduction with
  | hnil => rfl
  | hcons v rest ih =>
    cases hg : env.virtual_machine_get_salt v rg kwargs with
    | error e => simp [resolveVmList, hg, List.countP_cons, hp]
    | ok vm =>
      by_cases he : VDict.contains vm (Val.str "error") = true
      · simp [resolveVmList, hg, he, List.countP_cons, hp, ih]
      · cases hvid : VDict.lookup vm (Val.str "id") with
        | none => simp [resolveVmList, hg, he, hvid, List.countP_cons, hp]
        | some vid => simp [resolveVmList, hg, he, hvid, List.countP_cons, hp, ih]

theorem avsetBuildAndCall_countP (env : Env) (nm rg : String) (kwargs : VDict)
    (p : Event → Bool)
    (hp1 : ∀ pv obj kw, p (Event.createObjectModel pv obj kw) = false)
    (hp2 : ∀ g n m, p (Event.sdkCreateOrUpdate g n m) = false)
    (hp3 : ∀ a b, p (Event.logCloudError a b) = false) :
    ((avsetBuildAndCall env nm rg kwargs).2.countP p) = 0 := by
  cases hco : env.create_object_model "compute" "AvailabilitySet" kwargs with
  | error e =>
    by_cases ht : e.isTypeError = true <;>
      simp [avsetBuildAndCall, hco, ht, List.countP_cons, hp1]
  | ok m =>
    cases hcu : env.availability_sets_create_or_update rg nm m with
    | ok d => simp [avsetBuildAndCall, hco, hcu, List.countP_cons, hp1, hp2]
    | error e =>
      by_cases hh : e.isHttpResponseError = true
      · simp [avsetBuildAndCall, hco, hcu, hh, List.countP_cons, hp1, hp2, hp3]
      · by_cases hs : e.isSerializationError = true <;>
          simp [avsetBuildAndCall, hco, hcu, hh, hs, List.countP_cons, hp1, hp2]

theorem avsetAfterLocation_countP (env : Env) (nm rg : String) (kwargs : VDict)
    (p : Event → Bool)
    (hp0 : ∀ s, p (Event.getClient s) = false)
    (hp1 : ∀ pv obj kw, p (Event.createObjectModel pv obj kw) = false)
    (hp2 : ∀ g n m, p (Event.sdkCreateOrUpdate g n m) = false)
    (hp3 : ∀ a b, p (Event.logCloudError a b) = false)
    (hp4 : ∀ v g, p (Event.vmGet v g) = false) :
    ((avsetAfterLocation env nm rg kwargs).2.countP p) = 0 := by
  cases hc : env.get_client "compute" kwargs with
  | error e => simp [avsetAfterLocation, hc, List.countP_cons, hp0]
  | ok u =>
    cases hvk : VDict.lookup kwargs (Val.str "virtual_machines") with
    | none =>
      simp [avsetAfterLocation, hc, hvk, List.countP_cons, hp0,
        avsetBuildAndCall_countP env nm rg kwargs p hp1 hp2 hp3]
    | some v =>
      cases v with
      | list vms =>
        rcases hr : resolveVmList env rg kwargs vms with ⟨r1, r2⟩
        have hr2 : (r2.countP p) = 0 := by
          have := resolveVmList_countP env rg kwargs p hp4 vms
          rw [hr] at this; exact this
        cases r1 with
        | error e =>
          simp [avsetAfterLocation, hc, hvk, hr, List.countP_cons, hp0, hr2]
        | ok vm_list =>
          simp [avsetAfterLocation, hc, hvk, hr, List.countP_cons,
            List.countP_append, hp0, hr2,
            avsetBuildAndCall_countP env nm rg _ p hp1 hp2 hp3]
      | str s => simp [avsetAfterLocation, hc, hvk, List.countP_cons, hp0,
          avsetBuildAndCall_countP env nm rg kwargs p hp1 hp2 hp3]
      | bool b => simp [avsetAfterLocation, hc, hvk, List.countP_cons, hp0,
          avsetBuildAndCall_countP env nm rg kwargs p hp1 hp2 hp3]
      | int n => simp [avsetAfterLocation, hc, hvk, List.countP_cons, hp0,
          avsetBuildAndCall_countP env nm rg kwargs p hp1 hp2 hp3]
      | none => simp [avsetAfterLocation, hc, hvk, List.countP_cons, hp0,
          avsetBuildAndCall_countP env nm rg kwargs p hp1 hp2 hp3]
      | dict d => simp [avsetAfterLocation, hc, hvk, List.countP_cons, hp0,
          avsetBuildAndCall_countP env nm rg kwargs p hp1 hp2 hp3]

/-- C1 (counterexample): when the SDK delete call raises
`HttpResponseError("boom")`, `availability_set_delete` catches and logs
it but returns the boolean `False`, not the error mapping
`\x7b"error": "boom"\x7d` that the claim requires of every module
function. -/
theorem c1_counterexample :
    availability_set_delete envAllErr "testset" "testgroup" VDict.nil =
      (Except.ok (Val.bool false),
       [Event.getClient "compute", Event.sdkDelete "testgroup" "testset",
        Event.logCloudError "compute" "boom"]) ∧
    Val.bool false ≠ errDict "boom" := by
  constructor
  · decide
  · decide

/-- C1 (amended): for every module function, a `ResourceNotFoundError`
or `HttpResponseError` raised by the wrapped SDK call is caught and
logged through the shared cloud-error logger; the mapping-returning
functions surface it as the error mapping `\x7b"error": str(exc)\x7d`,
while the two boolean functions (`availability_set_delete` and
`virtual_machine_generalize`) log it and return the boolean `False`. -/
theorem c1_error_paths (env : Env) (nm rg dn pfx : String) (ow : Bool)
    (kwargs : VDict) (e : Exc) (m : Val)
    (he : e.isHttpResponseError = true)
    (hc : env.get_client "compute" kwargs = Except.ok ())
    (hloc : VDict.contains kwargs (Val.str "location") = true)
    (hvm : VDict.lookup kwargs (Val.str "virtual_machines") = Option.none)
    (hmodel : env.create_object_model "compute" "AvailabilitySet" kwargs = Except.ok m)
    (h1 : env.availability_sets_create_or_update rg nm m = Except.error e)
    (h2 : env.availability_sets_delete_sdk rg nm = Except.error e)
    (h3 : env.availability_sets_get_sdk rg nm = Except.error e)
    (h4 : env.availability_sets_list_sdk rg = Except.error e)
    (h5 : env.availability_sets_list_sizes_sdk rg nm = Except.error e)
    (h6 : env.virtual_machines_capture rg nm pfx dn ow = Except.error e)
    (h7 : env.virtual_machines_get rg nm (VDict.lookup kwargs (Val.str "expand")) =
      Except.error e)
    (h8 : env.virtual_machines_convert rg nm = Except.error e)
    (h9 : env.virtual_machines_deallocate rg nm = Except.error e)
    (h10 : env.virtual_machines_generalize rg nm = Except.error e)
    (h11 : env.virtual_machines_list_sdk rg = Except.error e)
    (h12 : env.virtual_machines_list_all_sdk = Except.error e)
    (h13 : env.virtual_machines_list_sizes_sdk rg nm = Except.error e)
    (h14 : env.virtual_machines_power_off rg nm = Except.error e)
    (h15 : env.virtual_machines_restart rg nm = Except.error e)
    (h16 : env.virtual_machines_start rg nm = Except.error e)
    (h17 : env.virtual_machines_redeploy rg nm = Except.error e) :
    availability_set_create_or_update env nm rg kwargs =
      (Except.ok (errDict e.str),
       [Event.getClient "compute",
        Event.createObjectModel "compute" "AvailabilitySet" kwargs,
        Event.sdkCreateOrUpdate rg nm m,
        Event.logCloudError "compute" e.str]) ∧
    availability_set_delete env nm rg kwargs =
      (Except.ok (Val.bool false),
       [Event.getClient "compute", Event.sdkDelete rg nm,
        Event.logCloudError "compute" e.str]) ∧
    availability_set_get env nm rg kwargs =
      (Except.ok (errDict e.str),
       [Event.getClient "compute", Event.sdkGet rg nm,
        Event.logCloudError "compute" e.str]) ∧
    availability_sets_list env rg kwargs =
      (Except.ok (errDict e.str),
       [Event.getClient "compute", Event.sdkList rg,
        Event.logCloudError "compute" e.str]) ∧
    availability_sets_list_available_sizes env nm rg kwargs =
      (Except.ok (errDict e.str),
       [Event.getClient "compute", Event.sdkListAvailableSizes rg nm,
        Event.logCloudError "compute" e.str]) ∧
    virtual_machine_capture env nm dn rg pfx ow kwargs =
      (Except.ok (errDict e.str),
       [Event.getClient "compute", Event.sdkCapture rg nm pfx dn ow,
        Event.logCloudError "compute" e.str]) ∧
    virtual_machine_get env nm rg kwargs =
      (Except.ok (errDict e.str),
       [Event.getClient "compute",
        Event.sdkVmGet rg nm (VDict.lookup kwargs (Val.str "expand")),
        Event.logCloudError "compute" e.str]) ∧
    virtual_machine_convert_to_managed_disks env nm rg kwargs =
      (Except.ok (errDict e.str),
       [Event.getClient "compute", Event.sdkConvertToManagedDisks rg nm,
        Event.logCloudError "comput" e.str]) ∧
    virtual_machine_deallocate env nm rg kwargs =
      (Except.ok (errDict e.str),
       [Event.getClient "compute", Event.sdkDeallocate rg nm,
        Event.logCloudError "compute" e.str]) ∧
    virtual_machine_generalize env nm rg kwargs =
      (Except.ok (Val.bool false),
       [Event.getClient "compute", Event.sdkGeneralize rg nm,
        Event.logCloudError "compute" e.str]) ∧
    virtual_machines_list env rg kwargs =
      (Except.ok (errDict e.str),
       [Event.getClient "compute", Event.sdkVmList rg,
        Event.logCloudError "compute" e.str]) ∧
    virtual_machines_list_all env kwargs =
      (Except.ok (errDict e.str),
       [Event.getClient "compute", Event.sdkVmListAll,
        Event.logCloudError "compute" e.str]) ∧
    virtual_machines_list_available_sizes env nm rg kwargs =
      (Except.ok (errDict e.str),
       [Event.getClient "compute", Event.sdkVmListAvailableSizes rg nm,
        Event.logCloudError "compute" e.str]) ∧
    virtual_machine_power_off env nm rg kwargs =
      (Except.ok (errDict e.str),
       [Event.getClient "compute", Event.sdkPowerOff rg nm,
        Event.logCloudError "compute" e.str]) ∧
    virtual_machine_restart env nm rg kwargs =
      (Except.ok (errDict e.str),
       [Event.getClient "compute", Event.sdkRestart rg nm,
        Event.logCloudError "compute" e.str]) ∧
    virtual_machine_start env nm rg kwargs =
      (Except.ok (errDict e.str),
       [Event.getClient "compute", Event.sdkStart rg nm,
        Event.logCloudError "compute" e.str]) ∧
    virtual_machine_redeploy env nm rg kwargs =
      (Except.ok (errDict e.str),
       [Event.getClient "compute", Event.sdkRedeploy rg nm,
        Event.logCloudError "compute" e.str]) := by
  refine ⟨?_, ?_, ?_, ?_, ?_, ?_, ?_, ?_, ?_, ?_, ?_, ?_, ?_, ?_, ?_, ?_, ?_⟩
  · simp [availability_set_create_or_update, hloc, avsetAfterLocation, hc, hvm,
      avsetBuildAndCall, hmodel, h1, he]
  · simp [availability_set_delete, hc, h2, boolRun, he]
  · simp [availability_set_get, hc, h3, mappingRun, he]
  · simp [availability_sets_list, hc, h4, listingRun, he]
  · simp [availability_sets_list_available_sizes, hc, h5, listingRun, he]
  · simp [virtual_machine_capture, hc, h6, mappingRun, he]
  · simp [virtual_machine_get, hc, h7, mappingRun, he]
  · simp [virtual_machine_convert_to_managed_disks, hc, h8, mappingRun, he]
  · simp [virtual_machine_deallocate, hc, h9, mappingRun, he]
  · simp [virtual_machine_generalize, hc, h10, boolRun, he]
  · simp [virtual_machines_list, hc, h11, listingRun, he]
  · simp [virtual_machines_list_all, hc, h12, listingRun, he]
  · simp [virtual_machines_list_available_sizes, hc, h13, listingRun, he]
  · simp [virtual_machine_power_off, hc, h14, mappingRun, he]
  · simp [virtual_machine_restart, hc, h15, mappingRun, he]
  · simp [virtual_machine_start, hc, h16, mappingRun, he]
  · simp [virtual_machine_redeploy, hc, h17, mappingRun, he]

/-- C1 (witness): the amended statement evaluated in `envAllErr`, where
every SDK call raises `HttpResponseError("boom")`. -/
theorem c1_witness :
    availability_set_delete envAllErr "n" "g" kwLoc =
      (Except.ok (Val.bool false),
       [Event.getClient "compute", Event.sdkDelete "g" "n",
        Event.logCloudError "compute" "boom"]) ∧
    availability_set_get envAllErr "n" "g" kwLoc =
      (Except.ok (errDict "boom"),
       [Event.getClient "compute", Event.sdkGet "g" "n",
        Event.logCloudError "compute" "boom"]) :=
  ⟨(c1_error_paths envAllErr "n" "g" "d" "p" false kwLoc (Exc.httpResponse "boom")
      (Val.dict kwLoc) rfl rfl (by decide) (by decide) rfl rfl rfl rfl rfl rfl rfl
      rfl rfl rfl rfl rfl rfl rfl rfl rfl rfl rfl).2.1,
   (c1_error_paths envAllErr "n" "g" "d" "p" false kwLoc (Exc.httpResponse "boom")
      (Val.dict kwLoc) rfl rfl (by decide) (by decide) rfl rfl rfl rfl rfl rfl rfl
      rfl rfl rfl rfl rfl rfl rfl rfl rfl rfl rfl).2.2.1⟩

/-- C2 (counterexample): when the client factory raises (as it does on
unrecoverable configuration errors), the exception propagates past the
function boundary of `availability_set_delete` — the function does not
degrade it to a returned error value. -/
theorem c2_counterexample :
    (availability_set_delete envBadAuth "testset" "testgroup" VDict.nil).1 =
      Except.error (Exc.other "The compute client is not supported.") := by
  decide

/-- C2 (amended): exactly the documented exception types are degraded
to returned error values.  A `ResourceNotFoundError` or
`HttpResponseError` raised by the wrapped SDK call is caught and becomes
a returned value (an error mapping, or `False` for the two boolean
functions), and in `availability_set_create_or_update` a `TypeError`
from the object-model builder and a `SerializationError` from the SDK
call become error mappings; every other exception propagates unhandled
past the function boundary — in particular an exception raised by the
client-factory call (`get_client`, invoked outside every `try` block)
and any SDK exception outside the caught types. -/
theorem c2_exception_boundary (env envR envG envB envS : Env)
    (nm rg dn pfx : String) (ow : Bool) (kwargs : VDict) (e er e2 : Exc)
    (mR mG mS : Val) (msgT smsg : String)
    (hc : env.get_client "compute" kwargs = Except.error e)
    (hloc : VDict.contains kwargs (Val.str "location") = true)
    (hvm : VDict.lookup kwargs (Val.str "virtual_machines") = Option.none)
    (her : er.isHttpResponseError = false)
    (hers : er.isSerializationError = false)
    (hcR : envR.get_client "compute" kwargs = Except.ok ())
    (hmodelR : envR.create_object_model "compute" "AvailabilitySet" kwargs =
      Except.ok mR)
    (h1R : envR.availability_sets_create_or_update rg nm mR = Except.error er)
    (h2R : envR.availability_sets_delete_sdk rg nm = Except.error er)
    (h3R : envR.availability_sets_get_sdk rg nm = Except.error er)
    (h4R : envR.availability_sets_list_sdk rg = Except.error er)
    (h5R : envR.availability_sets_list_sizes_sdk rg nm = Except.error er)
    (h6R : envR.virtual_machines_capture rg nm pfx dn ow = Except.error er)
    (h7R : envR.virtual_machines_get rg nm (VDict.lookup kwargs (Val.str "expand")) = Except.error er)
    (h8R : envR.virtual_machines_convert rg nm = Except.error er)
    (h9R : envR.virtual_machines_deallocate rg nm = Except.error er)
    (h10R : envR.virtual_machines_generalize rg nm = Except.error er)
    (h11R : envR.virtual_machines_list_sdk rg = Except.error er)
    (h12R : envR.virtual_machines_list_all_sdk = Except.error er)
    (h13R : envR.virtual_machines_list_sizes_sdk rg nm = Except.error er)
    (h14R : envR.virtual_machines_power_off rg nm = Except.error er)
    (h15R : envR.virtual_machines_restart rg nm = Except.error er)
    (h16R : envR.virtual_machines_start rg nm = Except.error er)
    (h17R : envR.virtual_machines_redeploy rg nm = Except.error er)
    (he2 : e2.isHttpResponseError = true)
    (hcG : envG.get_client "compute" kwargs = Except.ok ())
    (hmodelG : envG.create_object_model "compute" "AvailabilitySet" kwargs =
      Except.ok mG)
    (h1G : envG.availability_sets_create_or_update rg nm mG = Except.error e2)
    (h2G : envG.availability_sets_delete_sdk rg nm = Except.error e2)
    (h3G : envG.availability_sets_get_sdk rg nm = Except.error e2)
    (h4G : envG.availability_sets_list_sdk rg = Except.error e2)
    (h5G : envG.availability_sets_list_sizes_sdk rg nm = Except.error e2)
    (h6G : envG.virtual_machines_capture rg nm pfx dn ow = Except.error e2)
    (h7G : envG.virtual_machines_get rg nm (VDict.lookup kwargs (Val.str "expand")) = Except.error e2)
    (h8G : envG.virtual_machines_convert rg nm = Except.error e2)
    (h9G : envG.virtual_machines_deallocate rg nm = Except.error e2)
    (h10G : envG.virtual_machines_generalize rg nm = Except.error e2)
    (h11G : envG.virtual_machines_list_sdk rg = Except.error e2)
    (h12G : envG.virtual_machines_list_all_sdk = Except.error e2)
    (h13G : envG.virtual_machines_list_sizes_sdk rg nm = Except.error e2)
    (h14G : envG.virtual_machines_power_off rg nm = Except.error e2)
    (h15G : envG.virtual_machines_restart rg nm = Except.error e2)
    (h16G : envG.virtual_machines_start rg nm = Except.error e2)
    (h17G : envG.virtual_machines_redeploy rg nm = Except.error e2)
    (hcB : envB.get_client "compute" kwargs = Except.ok ())
    (hTB : envB.create_object_model "compute" "AvailabilitySet" kwargs =
      Except.error (Exc.typeError msgT))
    (hcS : envS.get_client "compute" kwargs = Except.ok ())
    (hmodelS : envS.create_object_model "compute" "AvailabilitySet" kwargs =
      Except.ok mS)
    (hserS : envS.availability_sets_create_or_update rg nm mS =
      Except.error (Exc.serialization smsg)) :
    (      availability_set_create_or_update env nm rg kwargs =
        (Except.error e, [Event.getClient "compute"]) ∧
      availability_set_delete env nm rg kwargs =
        (Except.error e, [Event.getClient "compute"]) ∧
      availability_set_get env nm rg kwargs =
        (Except.error e, [Event.getClient "compute"]) ∧
      availability_sets_list env rg kwargs =
        (Except.error e, [Event.getClient "compute"]) ∧
      availability_sets_list_available_sizes env nm rg kwargs =
        (Except.error e, [Event.getClient "compute"]) ∧
      virtual_machine_capture env nm dn rg pfx ow kwargs =
        (Except.error e, [Event.getClient "compute"]) ∧
      virtual_machine_get env nm rg kwargs =
        (Except.error e, [Event.getClient "compute"]) ∧
      virtual_machine_convert_to_managed_disks env nm rg kwargs =
        (Except.error e, [Event.getClient "compute"]) ∧
      virtual_machine_deallocate env nm rg kwargs =
        (Except.error e, [Event.getClient "compute"]) ∧
      virtual_machine_generalize env nm rg kwargs =
        (Except.error e, [Event.getClient "compute"]) ∧
      virtual_machines_list env rg kwargs =
        (Except.error e, [Event.getClient "compute"]) ∧
      virtual_machines_list_all env kwargs =
        (Except.error e, [Event.getClient "compute"]) ∧
      virtual_machines_list_available_sizes env nm rg kwargs =
        (Except.error e, [Event.getClient "compute"]) ∧
      virtual_machine_power_off env nm rg kwargs =
        (Except.error e, [Event.getClient "compute"]) ∧
      virtual_machine_restart env nm rg kwargs =
        (Except.error e, [Event.getClient "compute"]) ∧
      virtual_machine_start env nm rg kwargs =
        (Except.error e, [Event.getClient "compute"]) ∧
      virtual_machine_redeploy env nm rg kwargs =
        (Except.error e, [Event.getClient "compute"])) ∧
    (      availability_set_create_or_update envR nm rg kwargs =
        (Except.error er,
         [Event.getClient "compute",
          Event.createObjectModel "compute" "AvailabilitySet" kwargs,
          Event.sdkCreateOrUpdate rg nm mR]) ∧
      availability_set_delete envR nm rg kwargs =
        (Except.error er, [Event.getClient "compute", Event.sdkDelete rg nm]) ∧
      availability_set_get envR nm rg kwargs =
        (Except.error er, [Event.getClient "compute", Event.sdkGet rg nm]) ∧
      availability_sets_list envR rg kwargs =
        (Except.error er, [Event.getClient "compute", Event.sdkList rg]) ∧
      availability_sets_list_available_sizes envR nm rg kwargs =
        (Except.error er, [Event.getClient "compute", Event.sdkListAvailableSizes rg nm]) ∧
      virtual_machine_capture envR nm dn rg pfx ow kwargs =
        (Except.error er, [Event.getClient "compute", Event.sdkCapture rg nm pfx dn ow]) ∧
      virtual_machine_get envR nm rg kwargs =
        (Except.error er, [Event.getClient "compute", Event.sdkVmGet rg nm (VDict.lookup kwargs (Val.str "expand"))]) ∧
      virtual_machine_convert_to_managed_disks envR nm rg kwargs =
        (Except.error er, [Event.getClient "compute", Event.sdkConvertToManagedDisks rg nm]) ∧
      virtual_machine_deallocate envR nm rg kwargs =
        (Except.error er, [Event.getClient "compute", Event.sdkDeallocate rg nm]) ∧
      virtual_machine_generalize envR nm rg kwargs =
        (Except.error er, [Event.getClient "compute", Event.sdkGeneralize rg nm]) ∧
      virtual_machines_list envR rg kwargs =
        (Except.error er, [Event.getClient "compute", Event.sdkVmList rg]) ∧
      virtual_machines_list_all envR kwargs =
        (Except.error er, [Event.getClient "compute", Event.sdkVmListAll]) ∧
      virtual_machines_list_available_sizes envR nm rg kwargs =
        (Except.error er, [Event.getClient "compute", Event.sdkVmListAvailableSizes rg nm]) ∧
      virtual_machine_power_off envR nm rg kwargs =
        (Except.error er, [Event.getClient "compute", Event.sdkPowerOff rg nm]) ∧
      virtual_machine_restart envR nm rg kwargs =
        (Except.error er, [Event.getClient "compute", Event.sdkRestart rg nm]) ∧
      virtual_machine_start envR nm rg kwargs =
        (Except.error er, [Event.getClient "compute", Event.sdkStart rg nm]) ∧
      virtual_machine_redeploy envR nm rg kwargs =
        (Except.error er, [Event.getClient "compute", Event.sdkRedeploy rg nm])) ∧
    (      (availability_set_create_or_update envG nm rg kwargs).1 =
        Except.ok (errDict e2.str) ∧
      (availability_set_delete envG nm rg kwargs).1 = Except.ok (Val.bool false) ∧
      (availability_set_get envG nm rg kwargs).1 = Except.ok (errDict e2.str) ∧
      (availability_sets_list envG rg kwargs).1 = Except.ok (errDict e2.str) ∧
      (availability_sets_list_available_sizes envG nm rg kwargs).1 = Except.ok (errDict e2.str) ∧
      (virtual_machine_capture envG nm dn rg pfx ow kwargs).1 = Except.ok (errDict e2.str) ∧
      (virtual_machine_get envG nm rg kwargs).1 = Except.ok (errDict e2.str) ∧
      (virtual_machine_convert_to_managed_disks envG nm rg kwargs).1 = Except.ok (errDict e2.str) ∧
      (virtual_machine_deallocate envG nm rg kwargs).1 = Except.ok (errDict e2.str) ∧
      (virtual_machine_generalize envG nm rg kwargs).1 = Except.ok (Val.bool false) ∧
      (virtual_machines_list envG rg kwargs).1 = Except.ok (errDict e2.str) ∧
      (virtual_machines_list_all envG kwargs).1 = Except.ok (errDict e2.str) ∧
      (virtual_machines_list_available_sizes envG nm rg kwargs).1 = Except.ok (errDict e2.str) ∧
      (virtual_machine_power_off envG nm rg kwargs).1 = Except.ok (errDict e2.str) ∧
      (virtual_machine_restart envG nm rg kwargs).1 = Except.ok (errDict e2.str) ∧
      (virtual_machine_start envG nm rg kwargs).1 = Except.ok (errDict e2.str) ∧
      (virtual_machine_redeploy envG nm rg kwargs).1 = Except.ok (errDict e2.str)) ∧
    (availability_set_create_or_update envB nm rg kwargs).1 =
      Except.ok (errDict ("The object model could not be built. (" ++ msgT ++ ")")) ∧
    (availability_set_create_or_update envS nm rg kwargs).1 =
      Except.ok (errDict ("The object model could not be parsed. (" ++ smsg ++ ")")) := by
  refine ⟨⟨?_, ?_, ?_, ?_, ?_, ?_, ?_, ?_, ?_, ?_, ?_, ?_, ?_, ?_, ?_, ?_, ?_⟩, ⟨?_, ?_, ?_, ?_, ?_, ?_, ?_, ?_, ?_, ?_, ?_, ?_, ?_, ?_, ?_, ?_, ?_⟩, ⟨?_, ?_, ?_, ?_, ?_, ?_, ?_, ?_, ?_, ?_, ?_, ?_, ?_, ?_, ?_, ?_, ?_⟩, ?_, ?_⟩
  · simp [availability_set_create_or_update, hloc, avsetAfterLocation, hc]
  · simp [availability_set_delete, hc, boolRun]
  · simp [availability_set_get, hc, mappingRun]
  · simp [availability_sets_list, hc, listingRun]
  · simp [availability_sets_list_available_sizes, hc, listingRun]
  · simp [virtual_machine_capture, hc, mappingRun]
  · simp [virtual_machine_get, hc, mappingRun]
  · simp [virtual_machine_convert_to_managed_disks, hc, mappingRun]
  · simp [virtual_machine_deallocate, hc, mappingRun]
  · simp [virtual_machine_generalize, hc, boolRun]
  · simp [virtual_machines_list, hc, listingRun]
  · simp [virtual_machines_list_all, hc, listingRun]
  · simp [virtual_machines_list_available_sizes, hc, listingRun]
  · simp [virtual_machine_power_off, hc, mappingRun]
  · simp [virtual_machine_restart, hc, mappingRun]
  · simp [virtual_machine_start, hc, mappingRun]
  · simp [virtual_machine_redeploy, hc, mappingRun]
  · simp [availability_set_create_or_update, hloc, avsetAfterLocation, hcR, hvm,
      avsetBuildAndCall, hmodelR, h1R, her, hers]
  · simp [availability_set_delete, hcR, h2R, boolRun, her]
  · simp [availability_set_get, hcR, h3R, mappingRun, her]
  · simp [availability_sets_list, hcR, h4R, listingRun, her]
  · simp [availability_sets_list_available_sizes, hcR, h5R, listingRun, her]
  · simp [virtual_machine_capture, hcR, h6R, mappingRun, her]
  · simp [virtual_machine_get, hcR, h7R, mappingRun, her]
  · simp [virtual_machine_convert_to_managed_disks, hcR, h8R, mappingRun, her]
  · simp [virtual_machine_deallocate, hcR, h9R, mappingRun, her]
  · simp [virtual_machine_generalize, hcR, h10R, boolRun, her]
  · simp [virtual_machines_list, hcR, h11R, listingRun, her]
  · simp [virtual_machines_list_all, hcR, h12R, listingRun, her]
  · simp [virtual_machines_list_available_sizes, hcR, h13R, listingRun, her]
  · simp [virtual_machine_power_off, hcR, h14R, mappingRun, her]
  · simp [virtual_machine_restart, hcR, h15R, mappingRun, her]
  · simp [virtual_machine_start, hcR, h16R, mappingRun, her]
  · simp [virtual_machine_redeploy, hcR, h17R, mappingRun, her]
  · simp [availability_set_create_or_update, hloc, avsetAfterLocation, hcG, hvm,
      avsetBuildAndCall, hmodelG, h1G, he2]
  · simp [availability_set_delete, hcG, h2G, boolRun, he2]
  · simp [availability_set_get, hcG, h3G, mappingRun, he2]
  · simp [availability_sets_list, hcG, h4G, listingRun, he2]
  · simp [availability_sets_list_available_sizes, hcG, h5G, listingRun, he2]
  · simp [virtual_machine_capture, hcG, h6G, mappingRun, he2]
  · simp [virtual_machine_get, hcG, h7G, mappingRun, he2]
  · simp [virtual_machine_convert_to_managed_disks, hcG, h8G, mappingRun, he2]
  · simp [virtual_machine_deallocate, hcG, h9G, mappingRun, he2]
  · simp [virtual_machine_generalize, hcG, h10G, boolRun, he2]
  · simp [virtual_machines_list, hcG, h11G, listingRun, he2]
  · simp [virtual_machines_list_all, hcG, h12G, listingRun, he2]
  · simp [virtual_machines_list_available_sizes, hcG, h13G, listingRun, he2]
  · simp [virtual_machine_power_off, hcG, h14G, mappingRun, he2]
  · simp [virtual_machine_restart, hcG, h15G, mappingRun, he2]
  · simp [virtual_machine_start, hcG, h16G, mappingRun, he2]
  · simp [virtual_machine_redeploy, hcG, h17G, mappingRun, he2]
  · simp [availability_set_create_or_update, hloc, avsetAfterLocation, hcB, hvm,
      avsetBuildAndCall, hTB, Exc.isTypeError, Exc.str]
  · simp [availability_set_create_or_update, hloc, avsetAfterLocation, hcS, hvm,
      avsetBuildAndCall, hmodelS, hserS, Exc.isHttpResponseError,
      Exc.isSerializationError, Exc.str]

/-- C2 (witness): the amended statement evaluated with `envBadAuth`
(the client factory raises), `envUnexpected` (every SDK call raises an
exception outside the caught types), `envAllErr` (every SDK call raises
`HttpResponseError("boom")`), `envTypeErr` (the builder raises
`TypeError("oops")`) and `envSer` (the SDK `create_or_update` raises
`SerializationError("bad")`). -/
theorem c2_witness :
    availability_set_delete envBadAuth "n" "g" kwLoc =
      (Except.error (Exc.other "The compute client is not supported."),
       [Event.getClient "compute"]) ∧
    availability_set_delete envUnexpected "n" "g" kwLoc =
      (Except.error (Exc.other "unexpected"),
       [Event.getClient "compute", Event.sdkDelete "g" "n"]) ∧
    (availability_set_delete envAllErr "n" "g" kwLoc).1 =
      Except.ok (Val.bool false) ∧
    (availability_set_create_or_update envTypeErr "n" "g" kwLoc).1 =
      Except.ok (errDict "The object model could not be built. (oops)") :=
  ⟨(c2_exception_boundary envBadAuth envUnexpected envAllErr envTypeErr envSer
      "n" "g" "d" "p" false kwLoc
      (Exc.other "The compute client is not supported.")
      (Exc.other "unexpected") (Exc.httpResponse "boom")
      (Val.dict kwLoc) (Val.dict kwLoc) (Val.dict kwLoc) "oops" "bad"
      rfl (by decide) (by decide) rfl rfl rfl rfl
      rfl rfl rfl rfl rfl rfl rfl rfl rfl rfl rfl rfl rfl rfl rfl rfl rfl
      rfl rfl rfl
      rfl rfl rfl rfl rfl rfl rfl rfl rfl rfl rfl rfl rfl rfl rfl rfl rfl
      rfl rfl rfl rfl rfl).1.2.1,
   (c2_exception_boundary envBadAuth envUnexpected envAllErr envTypeErr envSer
      "n" "g" "d" "p" false kwLoc
      (Exc.other "The compute client is not supported.")
      (Exc.other "unexpected") (Exc.httpResponse "boom")
      (Val.dict kwLoc) (Val.dict kwLoc) (Val.dict kwLoc) "oops" "bad"
      rfl (by decide) (by decide) rfl rfl rfl rfl
      rfl rfl rfl rfl rfl rfl rfl rfl rfl rfl rfl rfl rfl rfl rfl rfl rfl
      rfl rfl rfl
      rfl rfl rfl rfl rfl rfl rfl rfl rfl rfl rfl rfl rfl rfl rfl rfl rfl
      rfl rfl rfl rfl rfl).2.1.2.1,
   (c2_exception_boundary envBadAuth envUnexpected envAllErr envTypeErr envSer
      "n" "g" "d" "p" false kwLoc
      (Exc.other "The compute client is not supported.")
      (Exc.other "unexpected") (Exc.httpResponse "boom")
      (Val.dict kwLoc) (Val.dict kwLoc) (Val.dict kwLoc) "oops" "bad"
      rfl (by decide) (by decide) rfl rfl rfl rfl
      rfl rfl rfl rfl rfl rfl rfl rfl rfl rfl rfl rfl rfl rfl rfl rfl rfl
      rfl rfl rfl
      rfl rfl rfl rfl rfl rfl rfl rfl rfl rfl rfl rfl rfl rfl rfl rfl rfl
      rfl rfl rfl rfl rfl).2.2.1.2.1,
   (c2_exception_boundary envBadAuth envUnexpected envAllErr envTypeErr envSer
      "n" "g" "d" "p" false kwLoc
      (Exc.other "The compute client is not supported.")
      (Exc.other "unexpected") (Exc.httpResponse "boom")
      (Val.dict kwLoc) (Val.dict kwLoc) (Val.dict kwLoc) "oops" "bad"
      rfl (by decide) (by decide) rfl rfl rfl rfl
      rfl rfl rfl rfl rfl rfl rfl rfl rfl rfl rfl rfl rfl rfl rfl rfl rfl
      rfl rfl rfl
      rfl rfl rfl rfl rfl rfl rfl rfl rfl rfl rfl rfl rfl rfl rfl rfl rfl
      rfl rfl rfl rfl rfl).2.2.2.1⟩

/-- C7: `virtual_machine_generalize` is a synchronous call that returns
the boolean `True` when the SDK `generalize` call succeeds, returns the
boolean `False` (after logging) when it raises `HttpResponseError`, and
never returns a resource mapping: whatever the environment, a returned
value is one of the two booleans. -/
theorem c7_generalize_boolean (env1 env2 : Env) (nm rg : String) (kwargs : VDict)
    (e : Exc) (he : e.isHttpResponseError = true)
    (hc1 : env1.get_client "compute" kwargs = Except.ok ())
    (hc2 : env2.get_client "compute" kwargs = Except.ok ())
    (hok : env1.virtual_machines_generalize rg nm = Except.ok ())
    (herr : env2.virtual_machines_generalize rg nm = Except.error e) :
    virtual_machine_generalize env1 nm rg kwargs =
      (Except.ok (Val.bool true),
       [Event.getClient "compute", Event.sdkGeneralize rg nm]) ∧
    virtual_machine_generalize env2 nm rg kwargs =
      (Except.ok (Val.bool false),
       [Event.getClient "compute", Event.sdkGeneralize rg nm,
        Event.logCloudError "compute" e.str]) ∧
    (∀ (env : Env) (n g : String) (kw : VDict) (r : Val),
      (virtual_machine_generalize env n g kw).1 = Except.ok r →
      r = Val.bool true ∨ r = Val.bool false) := by
  refine ⟨?_, ?_, ?_⟩
  · simp [virtual_machine_generalize, hc1, boolRun, hok]
  · simp [virtual_machine_generalize, hc2, boolRun, herr, he]
  · intro env n g kw r h
    unfold virtual_machine_generalize boolRun at h
    cases hcx : env.get_client "compute" kw with
    | error e' => rw [hcx] at h; simp at h
    | ok u =>
      rw [hcx] at h
      cases hs : env.virtual_machines_generalize g n with
      | ok u' =>
        rw [hs] at h
        simp at h
        exact Or.inl h.symm
      | error e' =>
        rw [hs] at h
        by_cases hh : e'.isHttpResponseError = true
        · simp [hh] at h
          exact Or.inr h.symm
        · simp [hh] at h

/-- C7 (witness): the statement evaluated in `okEnv` (SDK call succeeds)
and `envAllErr` (SDK call raises `HttpResponseError("boom")`). -/
theorem c7_witness :
    virtual_machine_generalize okEnv "n" "g" VDict.nil =
      (Except.ok (Val.bool true),
       [Event.getClient "compute", Event.sdkGeneralize "g" "n"]) ∧
    virtual_machine_generalize envAllErr "n" "g" VDict.nil =
      (Except.ok (Val.bool false),
       [Event.getClient "compute", Event.sdkGeneralize "g" "n",
        Event.logCloudError "compute" "boom"]) :=
  ⟨(c7_generalize_boolean okEnv envAllErr "n" "g" VDict.nil (Exc.httpResponse "boom")
      rfl rfl rfl rfl rfl).1,
   (c7_generalize_boolean okEnv envAllErr "n" "g" VDict.nil (Exc.httpResponse "boom")
      rfl rfl rfl rfl rfl).2.1⟩

theorem avsetBuildAndCall_head (env : Env) (nm rg : String) (kwargs : VDict) :
    ∃ tl, (avsetBuildAndCall env nm rg kwargs).2 =
      Event.createObjectModel "compute" "AvailabilitySet" kwargs :: tl := by
  cases hco : env.create_object_model "compute" "AvailabilitySet" kwargs with
  | error e =>
    by_cases ht : e.isTypeError = true <;>
      exact ⟨[], by simp [avsetBuildAndCall, hco, ht]⟩
  | ok m =>
    cases hcu : env.availability_sets_create_or_update rg nm m with
    | ok d =>
      exact ⟨[Event.sdkCreateOrUpdate rg nm m], by simp [avsetBuildAndCall, hco, hcu]⟩
    | error e =>
      by_cases hh : e.isHttpResponseError = true
      · exact ⟨[Event.sdkCreateOrUpdate rg nm m, Event.logCloudError "compute" e.str],
          by simp [avsetBuildAndCall, hco, hcu, hh]⟩
      · by_cases hs : e.isSerializationError = true <;>
          exact ⟨[Event.sdkCreateOrUpdate rg nm m],
            by simp [avsetBuildAndCall, hco, hcu, hh, hs]⟩

/-- C3: when the keyword arguments carry no `"location"` key,
`availability_set_create_or_update` queries the resource-group lookup
exactly once (one `rgGet` event in every trace); if that lookup returns a
mapping with an `"error"` key, the function logs and returns the boolean
`False` without ever calling the SDK's `create_or_update` method;
otherwise it adopts the returned location into the keyword arguments and
continues. -/
theorem c3_location_lookup (env : Env) (nm rg : String) (kwargs rg_props : VDict)
    (hloc : VDict.contains kwargs (Val.str "location") = false)
    (hrg : env.resource_group_get rg kwargs = Except.ok rg_props) :
    ((availability_set_create_or_update env nm rg kwargs).2.countP Event.isRgGet) = 1 ∧
    (VDict.contains rg_props (Val.str "error") = true →
      availability_set_create_or_update env nm rg kwargs =
        (Except.ok (Val.bool false),
         [Event.rgGet rg kwargs,
          Event.logError "Unable to determine location from resource group specified."]) ∧
      ((availability_set_create_or_update env nm rg kwargs).2.countP
        Event.isSdkCreateOrUpdate) = 0) ∧
    (∀ loc, VDict.contains rg_props (Val.str "error") = false →
      VDict.lookup rg_props (Val.str "location") = some loc →
      availability_set_create_or_update env nm rg kwargs =
        ((avsetAfterLocation env nm rg
            (VDict.insert kwargs (Val.str "location") loc)).1,
         Event.rgGet rg kwargs ::
           (avsetAfterLocation env nm rg
             (VDict.insert kwargs (Val.str "location") loc)).2)) := by
  refine ⟨?_, ?_, ?_⟩
  · by_cases herr : VDict.contains rg_props (Val.str "error") = true
    · simp [availability_set_create_or_update, hloc, hrg, herr,
        Event.isRgGet, List.countP_cons]
    · have herr' : VDict.contains rg_props (Val.str "error") = false := by
        simpa using herr
      cases hlk : VDict.lookup rg_props (Val.str "location") with
      | none =>
        simp [availability_set_create_or_update, hloc, hrg, herr', hlk,
          Event.isRgGet, List.countP_cons]
      | some loc =>
        have h0 := avsetAfterLocation_countP env nm rg
          (VDict.insert kwargs (Val.str "location") loc) Event.isRgGet
          (fun _ => rfl) (fun _ _ _ => rfl) (fun _ _ _ => rfl)
          (fun _ _ => rfl) (fun _ _ => rfl)
        simp [availability_set_create_or_update, hloc, hrg, herr', hlk,
          Event.isRgGet, List.countP_cons, h0]
  · intro herr
    constructor
    · simp [availability_set_create_or_update, hloc, hrg, herr]
    · simp [availability_set_create_or_update, hloc, hrg, herr,
        Event.isSdkCreateOrUpdate, List.countP_cons]
  · intro loc herr hlk
    simp [availability_set_create_or_update, hloc, hrg, herr, hlk]

/-- C3 (witness): with keyword arguments lacking a location and a
resource-group lookup that answers with an error mapping, the function
queries once, returns `False` and performs no SDK `create_or_update`
call. -/
theorem c3_witness :
    ((availability_set_create_or_update envRgErr "n" "g" VDict.nil).2.countP
      Event.isRgGet) = 1 ∧
    availability_set_create_or_update envRgErr "n" "g" VDict.nil =
      (Except.ok (Val.bool false),
       [Event.rgGet "g" VDict.nil,
        Event.logError "Unable to determine location from resource group specified."]) :=
  ⟨(c3_location_lookup envRgErr "n" "g" VDict.nil
      (VDict.cons (Val.str "error") (Val.str "group not found") VDict.nil)
      rfl rfl).1,
   ((c3_location_lookup envRgErr "n" "g" VDict.nil
      (VDict.cons (Val.str "error") (Val.str "group not found") VDict.nil)
      rfl rfl).2.1 (by decide)).1⟩

/-- C4: when the `virtual_machines` keyword argument is a list of VM
names, `availability_set_create_or_update` resolves each name through
the VM-get dispatch (one `vmGet` event per name, in list order) and
replaces the list by the order-preserving `filterMap` of the resolution:
each successfully resolved name becomes `\x7b"id": str(id)\x7d`, and
names whose lookup returned an error mapping are silently omitted. -/
theorem c4_vm_resolution (env : Env) (nm rg : String) (kwargs : VDict)
    (vms : VList) (f : Val → VDict)
    (hc : env.get_client "compute" kwargs = Except.ok ())
    (hloc : VDict.contains kwargs (Val.str "location") = true)
    (hkw : VDict.lookup kwargs (Val.str "virtual_machines") = some (Val.list vms))
    (hf : ∀ v, env.virtual_machine_get_salt v rg kwargs = Except.ok (f v))
    (hid : ∀ v ∈ vms.toList, VDict.contains (f v) (Val.str "error") = false →
      (VDict.lookup (f v) (Val.str "id")).isSome = true) :
    availability_set_create_or_update env nm rg kwargs =
      ((avsetBuildAndCall env nm rg
          (VDict.insert kwargs (Val.str "virtual_machines")
            (Val.list (VList.ofList (vms.toList.filterMap (resolveSpec f)))))).1,
       Event.getClient "compute" ::
         (vms.toList.map (fun v => Event.vmGet v rg) ++
          (avsetBuildAndCall env nm rg
            (VDict.insert kwargs (Val.str "virtual_machines")
              (Val.list (VList.ofList (vms.toList.filterMap (resolveSpec f)))))).2)) := by
  simp [availability_set_create_or_update, hloc, avsetAfterLocation, hc, hkw,
    resolveVmList_spec env rg kwargs f hf vms hid]

/-- C4 (witness): with `vm1` resolvable and `vm2` answering an error
mapping, the function dispatches one VM-get per name and continues with
`virtual_machines` replaced by the single resolved id object. -/
theorem c4_witness :
    availability_set_create_or_update envVmNames "n" "g" kwVms =
      ((avsetBuildAndCall envVmNames "n" "g" kwResolved).1,
       Event.getClient "compute" ::
         ([Event.vmGet (Val.str "vm1") "g", Event.vmGet (Val.str "vm2") "g"] ++
          (avsetBuildAndCall envVmNames "n" "g" kwResolved).2)) :=
  c4_vm_resolution envVmNames "n" "g" kwVms
    (VList.ofList [Val.str "vm1", Val.str "vm2"]) vmLookupC4
    rfl (by decide) (by decide) (fun v => rfl) (by decide)

/-- C10: when the `virtual_machines` keyword argument is present but not
a list (`isinstance(..., list)` fails), no VM-name resolution happens
(no `vmGet` event in the trace) and the keyword arguments reach the
object-model builder unmodified. -/
theorem c10_non_list_passthrough (env : Env) (nm rg : String) (kwargs : VDict)
    (v : Val)
    (hc : env.get_client "compute" kwargs = Except.ok ())
    (hloc : VDict.contains kwargs (Val.str "location") = true)
    (hkw : VDict.lookup kwargs (Val.str "virtual_machines") = some v)
    (hv : v.isList = false) :
    availability_set_create_or_update env nm rg kwargs =
      ((avsetBuildAndCall env nm rg kwargs).1,
       Event.getClient "compute" :: (avsetBuildAndCall env nm rg kwargs).2) ∧
    ((availability_set_create_or_update env nm rg kwargs).2.countP Event.isVmGet) = 0 ∧
    Event.createObjectModel "compute" "AvailabilitySet" kwargs ∈
      (availability_set_create_or_update env nm rg kwargs).2 := by
  have hrun : availability_set_create_or_update env nm rg kwargs =
      ((avsetBuildAndCall env nm rg kwargs).1,
       Event.getClient "compute" :: (avsetBuildAndCall env nm rg kwargs).2) := by
    cases v with
    | list l => simp [Val.isList] at hv
    | str s => simp [availability_set_create_or_update, hloc, avsetAfterLocation, hc, hkw]
    | bool b => simp [availability_set_create_or_update, hloc, avsetAfterLocation, hc, hkw]
    | int n => simp [availability_set_create_or_update, hloc, avsetAfterLocation, hc, hkw]
    | none => simp [availability_set_create_or_update, hloc, avsetAfterLocation, hc, hkw]
    | dict d => simp [availability_set_create_or_update, hloc, avsetAfterLocation, hc, hkw]
  refine ⟨hrun, ?_, ?_⟩
  · rw [hrun]
    simp [List.countP_cons, Event.isVmGet,
      avsetBuildAndCall_countP env nm rg kwargs Event.isVmGet
        (fun _ _ _ => rfl) (fun _ _ _ => rfl) (fun _ _ => rfl)]
  · rw [hrun]
    obtain ⟨tl, htl⟩ := avsetBuildAndCall_head env nm rg kwargs
    rw [htl]
    simp

/-- C10 (witness): with `virtual_machines` bound to the plain string
`"vm1"`, the run performs no VM-get dispatch and hands the keyword
arguments through unchanged. -/
theorem c10_witness :
    availability_set_create_or_update okEnv "n" "g" kwVmStr =
      ((avsetBuildAndCall okEnv "n" "g" kwVmStr).1,
       Event.getClient "compute" :: (avsetBuildAndCall okEnv "n" "g" kwVmStr).2) ∧
    ((availability_set_create_or_update okEnv "n" "g" kwVmStr).2.countP
      Event.isVmGet) = 0 :=
  ⟨(c10_non_list_passthrough okEnv "n" "g" kwVmStr (Val.str "vm1")
      rfl (by decide) (by decide) rfl).1,
   (c10_non_list_passthrough okEnv "n" "g" kwVmStr (Val.str "vm1")
      rfl (by decide) (by decide) rfl).2.1⟩

/-- C5 (counterexample): a `SerializationError("bad")` raised by the
wrapped `create_or_update` call is surfaced as the wrapped message
`"The object model could not be parsed. (bad)"` — not the exception's
own message — and the shared error logger is never invoked on that
path, contradicting "returns the exception message and logs exactly
once" for this documented exception type. -/
theorem c5_counterexample :
    availability_set_create_or_update envSer "n" "g" kwLoc =
      (Except.ok (errDict "The object model could not be parsed. (bad)"),
       [Event.getClient "compute",
        Event.createObjectModel "compute" "AvailabilitySet" kwLoc,
        Event.sdkCreateOrUpdate "g" "n" (Val.dict kwLoc)]) ∧
    ((availability_set_create_or_update envSer "n" "g" kwLoc).2.countP
      Event.isLogCloudError) = 0 ∧
    errDict "The object model could not be parsed. (bad)" ≠ errDict "bad" := by
  refine ⟨by decide, by decide, by decide⟩

/-- C5 (amended): for a `ResourceNotFoundError` or `HttpResponseError`
raised by the wrapped SDK call, every mapping-returning module function
returns the error mapping with the exception's message and invokes the
shared error logger exactly once with a module-name string and that
message — the string is `"compute"` in every function except
`virtual_machine_convert_to_managed_disks`, which passes `"comput"`;
the boolean functions log exactly once but return `False`; a
`SerializationError` raised by the wrapped `create_or_update` call of
`availability_set_create_or_update` is surfaced as the wrapped
"could not be parsed" message with no logger invocation. -/
theorem c5_logger_discipline (env envS : Env) (nm rg dn pfx : String) (ow : Bool)
    (kwargs kwargsS : VDict) (e : Exc) (m mS : Val) (smsg : String)
    (he : e.isHttpResponseError = true)
    (hc : env.get_client "compute" kwargs = Except.ok ())
    (hloc : VDict.contains kwargs (Val.str "location") = true)
    (hvm : VDict.lookup kwargs (Val.str "virtual_machines") = Option.none)
    (hmodel : env.create_object_model "compute" "AvailabilitySet" kwargs = Except.ok m)
    (h1 : env.availability_sets_create_or_update rg nm m = Except.error e)
    (h2 : env.availability_sets_delete_sdk rg nm = Except.error e)
    (h3 : env.availability_sets_get_sdk rg nm = Except.error e)
    (h4 : env.availability_sets_list_sdk rg = Except.error e)
    (h5 : env.availability_sets_list_sizes_sdk rg nm = Except.error e)
    (h6 : env.virtual_machines_capture rg nm pfx dn ow = Except.error e)
    (h7 : env.virtual_machines_get rg nm (VDict.lookup kwargs (Val.str "expand")) =
      Except.error e)
    (h8 : env.virtual_machines_convert rg nm = Except.error e)
    (h9 : env.virtual_machines_deallocate rg nm = Except.error e)
    (h10 : env.virtual_machines_generalize rg nm = Except.error e)
    (h11 : env.virtual_machines_list_sdk rg = Except.error e)
    (h12 : env.virtual_machines_list_all_sdk = Except.error e)
    (h13 : env.virtual_machines_list_sizes_sdk rg nm = Except.error e)
    (h14 : env.virtual_machines_power_off rg nm = Except.error e)
    (h15 : env.virtual_machines_restart rg nm = Except.error e)
    (h16 : env.virtual_machines_start rg nm = Except.error e)
    (h17 : env.virtual_machines_redeploy rg nm = Except.error e)
    (hcS : envS.get_client "compute" kwargsS = Except.ok ())
    (hlocS : VDict.contains kwargsS (Val.str "location") = true)
    (hvmS : VDict.lookup kwargsS (Val.str "virtual_machines") = Option.none)
    (hmodelS : envS.create_object_model "compute" "AvailabilitySet" kwargsS =
      Except.ok mS)
    (hserS : envS.availability_sets_create_or_update rg nm mS =
      Except.error (Exc.serialization smsg)) :
    ((availability_set_create_or_update env nm rg kwargs).1 = Except.ok (errDict e.str) ∧
     ((availability_set_create_or_update env nm rg kwargs).2.countP Event.isLogCloudError) = 1 ∧
     Event.logCloudError "compute" e.str ∈ (availability_set_create_or_update env nm rg kwargs).2) ∧
    ((availability_set_delete env nm rg kwargs).1 = Except.ok (Val.bool false) ∧
     ((availability_set_delete env nm rg kwargs).2.countP Event.isLogCloudError) = 1 ∧
     Event.logCloudError "compute" e.str ∈ (availability_set_delete env nm rg kwargs).2) ∧
    ((availability_set_get env nm rg kwargs).1 = Except.ok (errDict e.str) ∧
     ((availability_set_get env nm rg kwargs).2.countP Event.isLogCloudError) = 1 ∧
     Event.logCloudError "compute" e.str ∈ (availability_set_get env nm rg kwargs).2) ∧
    ((availability_sets_list env rg kwargs).1 = Except.ok (errDict e.str) ∧
     ((availability_sets_list env rg kwargs).2.countP Event.isLogCloudError) = 1 ∧
     Event.logCloudError "compute" e.str ∈ (availability_sets_list env rg kwargs).2) ∧
    ((availability_sets_list_available_sizes env nm rg kwargs).1 = Except.ok (errDict e.str) ∧
     ((availability_sets_list_available_sizes env nm rg kwargs).2.countP Event.isLogCloudError) = 1 ∧
     Event.logCloudError "compute" e.str ∈ (availability_sets_list_available_sizes env nm rg kwargs).2) ∧
    ((virtual_machine_capture env nm dn rg pfx ow kwargs).1 = Except.ok (errDict e.str) ∧
     ((virtual_machine_capture env nm dn rg pfx ow kwargs).2.countP Event.isLogCloudError) = 1 ∧
     Event.logCloudError "compute" e.str ∈ (virtual_machine_capture env nm dn rg pfx ow kwargs).2) ∧
    ((virtual_machine_get env nm rg kwargs).1 = Except.ok (errDict e.str) ∧
     ((virtual_machine_get env nm rg kwargs).2.countP Event.isLogCloudError) = 1 ∧
     Event.logCloudError "compute" e.str ∈ (virtual_machine_get env nm rg kwargs).2) ∧
    ((virtual_machine_convert_to_managed_disks env nm rg kwargs).1 = Except.ok (errDict e.str) ∧
     ((virtual_machine_convert_to_managed_disks env nm rg kwargs).2.countP Event.isLogCloudError) = 1 ∧
     Event.logCloudError "comput" e.str ∈ (virtual_machine_convert_to_managed_disks env nm rg kwargs).2) ∧
    ((virtual_machine_deallocate env nm rg kwargs).1 = Except.ok (errDict e.str) ∧
     ((virtual_machine_deallocate env nm rg kwargs).2.countP Event.isLogCloudError) = 1 ∧
     Event.logCloudError "compute" e.str ∈ (virtual_machine_deallocate env nm rg kwargs).2) ∧
    ((virtual_machine_generalize env nm rg kwargs).1 = Except.ok (Val.bool false) ∧
     ((virtual_machine_generalize env nm rg kwargs).2.countP Event.isLogCloudError) = 1 ∧
     Event.logCloudError "compute" e.str ∈ (virtual_machine_generalize env nm rg kwargs).2) ∧
    ((virtual_machines_list env rg kwargs).1 = Except.ok (errDict e.str) ∧
     ((virtual_machines_list env rg kwargs).2.countP Event.isLogCloudError) = 1 ∧
     Event.logCloudError "compute" e.str ∈ (virtual_machines_list env rg kwargs).2) ∧
    ((virtual_machines_list_all env kwargs).1 = Except.ok (errDict e.str) ∧
     ((virtual_machines_list_all env kwargs).2.countP Event.isLogCloudError) = 1 ∧
     Event.logCloudError "compute" e.str ∈ (virtual_machines_list_all env kwargs).2) ∧
    ((virtual_machines_list_available_sizes env nm rg kwargs).1 = Except.ok (errDict e.str) ∧
     ((virtual_machines_list_available_sizes env nm rg kwargs).2.countP Event.isLogCloudError) = 1 ∧
     Event.logCloudError "compute" e.str ∈ (virtual_machines_list_available_sizes env nm rg kwargs).2) ∧
    ((virtual_machine_power_off env nm rg kwargs).1 = Except.ok (errDict e.str) ∧
     ((virtual_machine_power_off env nm rg kwargs).2.countP Event.isLogCloudError) = 1 ∧
     Event.logCloudError "compute" e.str ∈ (virtual_machine_power_off env nm rg kwargs).2) ∧
    ((virtual_machine_restart env nm rg kwargs).1 = Except.ok (errDict e.str) ∧
     ((virtual_machine_restart env nm rg kwargs).2.countP Event.isLogCloudError) = 1 ∧
     Event.logCloudError "compute" e.str ∈ (virtual_machine_restart env nm rg kwargs).2) ∧
    ((virtual_machine_start env nm rg kwargs).1 = Except.ok (errDict e.str) ∧
     ((virtual_machine_start env nm rg kwargs).2.countP Event.isLogCloudError) = 1 ∧
     Event.logCloudError "compute" e.str ∈ (virtual_machine_start env nm rg kwargs).2) ∧
    ((virtual_machine_redeploy env nm rg kwargs).1 = Except.ok (errDict e.str) ∧
     ((virtual_machine_redeploy env nm rg kwargs).2.countP Event.isLogCloudError) = 1 ∧
     Event.logCloudError "compute" e.str ∈ (virtual_machine_redeploy env nm rg kwargs).2) ∧
    ((availability_set_create_or_update envS nm rg kwargsS).1 =
       Except.ok (errDict ("The object model could not be parsed. (" ++ smsg ++ ")")) ∧
     ((availability_set_create_or_update envS nm rg kwargsS).2.countP
       Event.isLogCloudError) = 0) := by
  refine ⟨?_, ?_, ?_, ?_, ?_, ?_, ?_, ?_, ?_, ?_, ?_, ?_, ?_, ?_, ?_, ?_, ?_, ?_⟩
  · refine ⟨?_, ?_, ?_⟩
    · simp [availability_set_create_or_update, hloc, avsetAfterLocation, hc, hvm, avsetBuildAndCall, hmodel, h1, he]
    · simp [availability_set_create_or_update, hloc, avsetAfterLocation, hc, hvm, avsetBuildAndCall, hmodel, h1, he, List.countP_cons, List.countP_nil, Event.isLogCloudError]
    · simp [availability_set_create_or_update, hloc, avsetAfterLocation, hc, hvm, avsetBuildAndCall, hmodel, h1, he]
  · refine ⟨?_, ?_, ?_⟩
    · simp [availability_set_delete, hc, h2, boolRun, he]
    · simp [availability_set_delete, hc, h2, boolRun, he, List.countP_cons, List.countP_nil, Event.isLogCloudError]
    · simp [availability_set_delete, hc, h2, boolRun, he]
  · refine ⟨?_, ?_, ?_⟩
    · simp [availability_set_get, hc, h3, mappingRun, he]
    · simp [availability_set_get, hc, h3, mappingRun, he, List.countP_cons, List.countP_nil, Event.isLogCloudError]
    · simp [availability_set_get, hc, h3, mappingRun, he]
  · refine ⟨?_, ?_, ?_⟩
    · simp [availability_sets_list, hc, h4, listingRun, he]
    · simp [availability_sets_list, hc, h4, listingRun, he, List.countP_cons, List.countP_nil, Event.isLogCloudError]
    · simp [availability_sets_list, hc, h4, listingRun, he]
  · refine ⟨?_, ?_, ?_⟩
    · simp [availability_sets_list_available_sizes, hc, h5, listingRun, he]
    · simp [availability_sets_list_available_sizes, hc, h5, listingRun, he, List.countP_cons, List.countP_nil, Event.isLogCloudError]
    · simp [availability_sets_list_available_sizes, hc, h5, listingRun, he]
  · refine ⟨?_, ?_, ?_⟩
    · simp [virtual_machine_capture, hc, h6, mappingRun, he]
    · simp [virtual_machine_capture, hc, h6, mappingRun, he, List.countP_cons, List.countP_nil, Event.isLogCloudError]
    · simp [virtual_machine_capture, hc, h6, mappingRun, he]
  · refine ⟨?_, ?_, ?_⟩
    · simp [virtual_machine_get, hc, h7, mappingRun, he]
    · simp [virtual_machine_get, hc, h7, mappingRun, he, List.countP_cons, List.countP_nil, Event.isLogCloudError]
    · simp [virtual_machine_get, hc, h7, mappingRun, he]
  · refine ⟨?_, ?_, ?_⟩
    · simp [virtual_machine_convert_to_managed_disks, hc, h8, mappingRun, he]
    · simp [virtual_machine_convert_to_managed_disks, hc, h8, mappingRun, he, List.countP_cons, List.countP_nil, Event.isLogCloudError]
    · simp [virtual_machine_convert_to_managed_disks, hc, h8, mappingRun, he]
  · refine ⟨?_, ?_, ?_⟩
    · simp [virtual_machine_deallocate, hc, h9, mappingRun, he]
    · simp [virtual_machine_deallocate, hc, h9, mappingRun, he, List.countP_cons, List.countP_nil, Event.isLogCloudError]
    · simp [virtual_machine_deallocate, hc, h9, mappingRun, he]
  · refine ⟨?_, ?_, ?_⟩
    · simp [virtual_machine_generalize, hc, h10, boolRun, he]
    · simp [virtual_machine_generalize, hc, h10, boolRun, he, List.countP_cons, List.countP_nil, Event.isLogCloudError]
    · simp [virtual_machine_generalize, hc, h10, boolRun, he]
  · refine ⟨?_, ?_, ?_⟩
    · simp [virtual_machines_list, hc, h11, listingRun, he]
    · simp [virtual_machines_list, hc, h11, listingRun, he, List.countP_cons, List.countP_nil, Event.isLogCloudError]
    · simp [virtual_machines_list, hc, h11, listingRun, he]
  · refine ⟨?_, ?_, ?_⟩
    · simp [virtual_machines_list_all, hc, h12, listingRun, he]
    · simp [virtual_machines_list_all, hc, h12, listingRun, he, List.countP_cons, List.countP_nil, Event.isLogCloudError]
    · simp [virtual_machines_list_all, hc, h12, listingRun, he]
  · refine ⟨?_, ?_, ?_⟩
    · simp [virtual_machines_list_available_sizes, hc, h13, listingRun, he]
    · simp [virtual_machines_list_available_sizes, hc, h13, listingRun, he, List.countP_cons, List.countP_nil, Event.isLogCloudError]
    · simp [virtual_machines_list_available_sizes, hc, h13, listingRun, he]
  · refine ⟨?_, ?_, ?_⟩
    · simp [virtual_machine_power_off, hc, h14, mappingRun, he]
    · simp [virtual_machine_power_off, hc, h14, mappingRun, he, List.countP_cons, List.countP_nil, Event.isLogCloudError]
    · simp [virtual_machine_power_off, hc, h14, mappingRun, he]
  · refine ⟨?_, ?_, ?_⟩
    · simp [virtual_machine_restart, hc, h15, mappingRun, he]
    · simp [virtual_machine_restart, hc, h15, mappingRun, he, List.countP_cons, List.countP_nil, Event.isLogCloudError]
    · simp [virtual_machine_restart, hc, h15, mappingRun, he]
  · refine ⟨?_, ?_, ?_⟩
    · simp [virtual_machine_start, hc, h16, mappingRun, he]
    · simp [virtual_machine_start, hc, h16, mappingRun, he, List.countP_cons, List.countP_nil, Event.isLogCloudError]
    · simp [virtual_machine_start, hc, h16, mappingRun, he]
  · refine ⟨?_, ?_, ?_⟩
    · simp [virtual_machine_redeploy, hc, h17, mappingRun, he]
    · simp [virtual_machine_redeploy, hc, h17, mappingRun, he, List.countP_cons, List.countP_nil, Event.isLogCloudError]
    · simp [virtual_machine_redeploy, hc, h17, mappingRun, he]
  · refine ⟨?_, ?_⟩
    · simp [availability_set_create_or_update, hlocS, avsetAfterLocation, hcS, hvmS,
        avsetBuildAndCall, hmodelS, hserS, Exc.isHttpResponseError,
        Exc.isSerializationError, Exc.str]
    · simp [availability_set_create_or_update, hlocS, avsetAfterLocation, hcS, hvmS,
        avsetBuildAndCall, hmodelS, hserS, Exc.isHttpResponseError,
        Exc.isSerializationError, List.countP_cons, List.countP_nil,
        Event.isLogCloudError]

/-- C5 (witness): the amended statement evaluated with `envAllErr` (all
SDK calls raise `HttpResponseError("boom")`) and `envSer` (the SDK
`create_or_update` raises `SerializationError("bad")`): the convert
function logs under `"comput"` exactly once, and the serialization path
logs nothing. -/
theorem c5_witness :
    ((virtual_machine_convert_to_managed_disks envAllErr "n" "g" kwLoc).2.countP
      Event.isLogCloudError) = 1 ∧
    Event.logCloudError "comput" "boom" ∈
      (virtual_machine_convert_to_managed_disks envAllErr "n" "g" kwLoc).2 ∧
    ((availability_set_create_or_update envSer "n" "g" kwLoc).2.countP
      Event.isLogCloudError) = 0 :=
  ⟨(c5_logger_discipline envAllErr envSer "n" "g" "d" "p" false kwLoc kwLoc
      (Exc.httpResponse "boom") (Val.dict kwLoc) (Val.dict kwLoc) "bad"
      rfl rfl (by decide) (by decide) rfl rfl rfl rfl rfl rfl rfl rfl rfl rfl rfl
      rfl rfl rfl rfl rfl rfl rfl rfl (by decide) (by decide) rfl
      rfl).2.2.2.2.2.2.2.1.2.1,
   (c5_logger_discipline envAllErr envSer "n" "g" "d" "p" false kwLoc kwLoc
      (Exc.httpResponse "boom") (Val.dict kwLoc) (Val.dict kwLoc) "bad"
      rfl rfl (by decide) (by decide) rfl rfl rfl rfl rfl rfl rfl rfl rfl rfl rfl
      rfl rfl rfl rfl rfl rfl rfl rfl (by decide) (by decide) rfl
      rfl).2.2.2.2.2.2.2.1.2.2,
   (c5_logger_discipline envAllErr envSer "n" "g" "d" "p" false kwLoc kwLoc
      (Exc.httpResponse "boom") (Val.dict kwLoc) (Val.dict kwLoc) "bad"
      rfl rfl (by decide) (by decide) rfl rfl rfl rfl rfl rfl rfl rfl rfl rfl rfl
      rfl rfl rfl rfl rfl rfl rfl rfl (by decide) (by decide) rfl
      rfl).2.2.2.2.2.2.2.2.2.2.2.2.2.2.2.2.2.2⟩


/-- C6: in `availability_set_create_or_update`, a `TypeError` raised
while building the `AvailabilitySet` object model from the keyword
arguments is surfaced as the error mapping with message
"The object model could not be built. (<detail>)" without any SDK call,
and a `SerializationError` raised by the SDK `create_or_update` call is
surfaced as the error mapping with message
"The object model could not be parsed. (<detail>)", where `<detail>` is
the exception's string form. -/
theorem c6_object_model_errors (env : Env) (nm rg : String)
    (kwargs1 kwargs2 : VDict) (msgT msgS : String) (m : Val)
    (hc1 : env.get_client "compute" kwargs1 = Except.ok ())
    (hloc1 : VDict.contains kwargs1 (Val.str "location") = true)
    (hvm1 : VDict.lookup kwargs1 (Val.str "virtual_machines") = Option.none)
    (hT : env.create_object_model "compute" "AvailabilitySet" kwargs1 =
      Except.error (Exc.typeError msgT))
    (hc2 : env.get_client "compute" kwargs2 = Except.ok ())
    (hloc2 : VDict.contains kwargs2 (Val.str "location") = true)
    (hvm2 : VDict.lookup kwargs2 (Val.str "virtual_machines") = Option.none)
    (hM : env.create_object_model "compute" "AvailabilitySet" kwargs2 = Except.ok m)
    (hS : env.availability_sets_create_or_update rg nm m =
      Except.error (Exc.serialization msgS)) :
    availability_set_create_or_update env nm rg kwargs1 =
      (Except.ok (errDict ("The object model could not be built. (" ++ msgT ++ ")")),
       [Event.getClient "compute",
        Event.createObjectModel "compute" "AvailabilitySet" kwargs1]) ∧
    availability_set_create_or_update env nm rg kwargs2 =
      (Except.ok (errDict ("The object model could not be parsed. (" ++ msgS ++ ")")),
       [Event.getClient "compute",
        Event.createObjectModel "compute" "AvailabilitySet" kwargs2,
        Event.sdkCreateOrUpdate rg nm m]) := by
  constructor
  · simp [availability_set_create_or_update, hloc1, avsetAfterLocation, hc1, hvm1,
      avsetBuildAndCall, hT, Exc.isTypeError, Exc.str]
  · simp [availability_set_create_or_update, hloc2, avsetAfterLocation, hc2, hvm2,
      avsetBuildAndCall, hM, hS, Exc.isHttpResponseError, Exc.isSerializationError,
      Exc.str]

/-- C6 (witness): in `envBuild`, keyword arguments carrying the
`"trigger"` key make the builder raise `TypeError("oops")`, and plain
keyword arguments reach the SDK call, which raises
`SerializationError("parsefail")`. -/
theorem c6_witness :
    availability_set_create_or_update envBuild "n" "g" kwTrigger =
      (Except.ok (errDict "The object model could not be built. (oops)"),
       [Event.getClient "compute",
        Event.createObjectModel "compute" "AvailabilitySet" kwTrigger]) ∧
    availability_set_create_or_update envBuild "n" "g" kwLoc =
      (Except.ok (errDict "The object model could not be parsed. (parsefail)"),
       [Event.getClient "compute",
        Event.createObjectModel "compute" "AvailabilitySet" kwLoc,
        Event.sdkCreateOrUpdate "g" "n" (Val.dict kwLoc)]) :=
  c6_object_model_errors envBuild "n" "g" kwTrigger kwLoc "oops" "parsefail"
    (Val.dict kwLoc) rfl (by decide) (by decide) (by decide) rfl (by decide)
    (by decide) (by decide) rfl

/-- C8 (counterexample): when the flattened sequence holds two items
with the same `"name"` field `"a"`, the returned mapping binds `"a"` to
the second item, so the first item's name is not mapped to that first
item, refuting the claim's "maps the item's name to that item" for
every item. -/
theorem c8_counterexample :
    availability_sets_list envDup "g" VDict.nil =
      (Except.ok (Val.dict (VDict.cons (Val.str "a") (Val.dict itemA2) VDict.nil)),
       [Event.getClient "compute", Event.sdkList "g"]) ∧
    VDict.lookup (VDict.cons (Val.str "a") (Val.dict itemA2) VDict.nil) (Val.str "a") ≠
      some (Val.dict itemA1) := by
  refine ⟨by decide, by decide⟩

/-- C8 (amended): every listing function returns, on a successful SDK
call, the dictionary obtained by keying each item of the flattened
sequence by its `"name"` field; each item's name occurs as a key, and
each key is bound to the last item of the sequence bearing that name
(hence, when names are distinct, each item's name is bound to that very
item). -/
theorem c8_listing_keyed_by_name (env : Env) (nm rg : String) (kwargs : VDict)
    (items : List VDict)
    (hc : env.get_client "compute" kwargs = Except.ok ())
    (hnames : ∀ it ∈ items, (VDict.lookup it (Val.str "name")).isSome = true)
    (h1 : env.availability_sets_list_sdk rg = Except.ok items)
    (h2 : env.availability_sets_list_sizes_sdk rg nm = Except.ok items)
    (h3 : env.virtual_machines_list_sdk rg = Except.ok items)
    (h4 : env.virtual_machines_list_all_sdk = Except.ok items)
    (h5 : env.virtual_machines_list_sizes_sdk rg nm = Except.ok items) :
    availability_sets_list env rg kwargs =
      (Except.ok (Val.dict (namedAux items VDict.nil)),
       [Event.getClient "compute", Event.sdkList rg]) ∧
    availability_sets_list_available_sizes env nm rg kwargs =
      (Except.ok (Val.dict (namedAux items VDict.nil)),
       [Event.getClient "compute", Event.sdkListAvailableSizes rg nm]) ∧
    virtual_machines_list env rg kwargs =
      (Except.ok (Val.dict (namedAux items VDict.nil)),
       [Event.getClient "compute", Event.sdkVmList rg]) ∧
    virtual_machines_list_all env kwargs =
      (Except.ok (Val.dict (namedAux items VDict.nil)),
       [Event.getClient "compute", Event.sdkVmListAll]) ∧
    virtual_machines_list_available_sizes env nm rg kwargs =
      (Except.ok (Val.dict (namedAux items VDict.nil)),
       [Event.getClient "compute", Event.sdkVmListAvailableSizes rg nm]) ∧
    (∀ k, VDict.lookup (namedAux items VDict.nil) k =
      match lastNamed items k with
      | some it => some (Val.dict it)
      | Option.none => Option.none) ∧
    (∀ it ∈ items, ∀ k, VDict.lookup it (Val.str "name") = some k →
      (VDict.lookup (namedAux items VDict.nil) k).isSome = true) := by
  have hnamed := listToNamed_eq_namedAux items VDict.nil hnames
  refine ⟨?_, ?_, ?_, ?_, ?_, ?_, ?_⟩
  · simp [availability_sets_list, hc, h1, listingRun, hnamed]
  · simp [availability_sets_list_available_sizes, hc, h2, listingRun, hnamed]
  · simp [virtual_machines_list, hc, h3, listingRun, hnamed]
  · simp [virtual_machines_list_all, hc, h4, listingRun, hnamed]
  · simp [virtual_machines_list_available_sizes, hc, h5, listingRun, hnamed]
  · intro k
    rw [lookup_namedAux]
    cases h : lastNamed items k <;> simp [VDict.lookup]
  · intro it hit k hk
    have hsome := lastNamed_isSome_of_mem items it k hit hk
    rw [lookup_namedAux]
    cases h : lastNamed items k with
    | none => rw [h] at hsome; simp at hsome
    | some r => simp

/-- C8 (witness): the amended statement evaluated in `envTwo`, whose
listings yield two items with the distinct names `"a"` and `"b"`: each
name is bound to its own item. -/
theorem c8_witness :
    availability_sets_list envTwo "g" VDict.nil =
      (Except.ok (Val.dict
        (VDict.cons (Val.str "a") (Val.dict itemA1)
          (VDict.cons (Val.str "b") (Val.dict itemB) VDict.nil))),
       [Event.getClient "compute", Event.sdkList "g"]) ∧
    virtual_machines_list_all envTwo VDict.nil =
      (Except.ok (Val.dict
        (VDict.cons (Val.str "a") (Val.dict itemA1)
          (VDict.cons (Val.str "b") (Val.dict itemB) VDict.nil))),
       [Event.getClient "compute", Event.sdkVmListAll]) :=
  ⟨(c8_listing_keyed_by_name envTwo "n" "g" VDict.nil [itemA1, itemB]
      rfl (by decide) rfl rfl rfl rfl rfl).1,
   (c8_listing_keyed_by_name envTwo "n" "g" VDict.nil [itemA1, itemB]
      rfl (by decide) rfl rfl rfl rfl rfl).2.2.2.1⟩

/-- C9: in the listing functions, a later item of the flattened
sequence overwrites an earlier item with an equal `"name"` field: the
returned dictionary has no duplicate keys, and each key is bound to the
last item of the sequence with that name. -/
theorem c9_duplicate_names_last_wins (env : Env) (nm rg : String) (kwargs : VDict)
    (items : List VDict)
    (hc : env.get_client "compute" kwargs = Except.ok ())
    (hnames : ∀ it ∈ items, (VDict.lookup it (Val.str "name")).isSome = true)
    (h1 : env.availability_sets_list_sdk rg = Except.ok items)
    (h2 : env.virtual_machines_list_sizes_sdk rg nm = Except.ok items) :
    (availability_sets_list env rg kwargs).1 =
      Except.ok (Val.dict (namedAux items VDict.nil)) ∧
    (virtual_machines_list_available_sizes env nm rg kwargs).1 =
      Except.ok (Val.dict (namedAux items VDict.nil)) ∧
    (VDict.keys (namedAux items VDict.nil)).Nodup ∧
    (∀ k, VDict.lookup (namedAux items VDict.nil) k =
      match lastNamed items k with
      | some it => some (Val.dict it)
      | Option.none => Option.none) := by
  have hnamed := listToNamed_eq_namedAux items VDict.nil hnames
  refine ⟨?_, ?_, ?_, ?_⟩
  · simp [availability_sets_list, hc, h1, listingRun, hnamed]
  · simp [virtual_machines_list_available_sizes, hc, h2, listingRun, hnamed]
  · exact keys_nodup_namedAux items VDict.nil (by simp [VDict.keys])
  · intro k
    rw [lookup_namedAux]
    cases h : lastNamed items k <;> simp [VDict.lookup]

/-- C9 (witness): with two items both named `"a"`, the listing result
holds a single `"a"` entry bound to the second (last) item. -/
theorem c9_witness :
    (availability_sets_list envDup "g" VDict.nil).1 =
      Except.ok (Val.dict (VDict.cons (Val.str "a") (Val.dict itemA2) VDict.nil)) ∧
    (virtual_machines_list_available_sizes envDup "n" "g" VDict.nil).1 =
      Except.ok (Val.dict (VDict.cons (Val.str "a") (Val.dict itemA2) VDict.nil)) :=
  ⟨(c9_duplicate_names_last_wins envDup "n" "g" VDict.nil [itemA1, itemA2]
      rfl (by decide) rfl rfl).1,
   (c9_duplicate_names_last_wins envDup "n" "g" VDict.nil [itemA1, itemA2]
      rfl (by decide) rfl rfl).2.1⟩

end AzureRM
